import Mathlib

/-!
Shallow embedding of `ArgditLib/EntrezDBAccess.py` (module performing NCBI
database access via Entrez utilities) and verification of its specified
properties.

Modelling conventions:
* Python machine state relevant to the module (the number of network calls
  made, the ordered trace of observable effects, and the parser sink's
  accumulated state) is threaded explicitly through every function as a
  `St` value.
* The outcome of each network attempt is supplied by an environment oracle
  `Env.net : Nat -> NetOutcome` indexed by the global attempt counter; this
  represents the remote NCBI service, which the module treats as an external
  collaborator.
* Python's `None` checks on the values returned by the fetch wrappers are
  modelled by the `PyVal` type, which distinguishes a real data handle,
  Python `None`, and the tuple `(None, None, None)` (the latter is a value
  distinct from `None` for Python's `is None` test, exactly as in CPython).
* `list(set(xs))` has unspecified iteration order in Python; it is modelled
  deterministically by `List.dedup`.  Every property proved below is
  insensitive to which duplicate-free enumeration is chosen.
-/

set_option linter.unusedVariables false

/-- Maximum accession number count for an epost batch on the feature-table
search path (`EPOST_FT_BATCH_SIZE` in the source). -/
def EPOST_FT_BATCH_SIZE : Nat := 100

/-- Maximum accession number count for an epost batch on the sequence search
paths (`EPOST_SEQ_BATCH_SIZE` in the source). -/
def EPOST_SEQ_BATCH_SIZE : Nat := 100

/-- Fixed efetch page size (`EFETCH_BATCH_SIZE` in the source). -/
def EFETCH_BATCH_SIZE : Nat := 100

/-- Retry attempt cap (`MAX_ATTEMPT` in the source). -/
def MAX_ATTEMPT : Nat := 3

/-!
### Batcher: `_split_acc_nums_into_batch`

The source function:
```
def _split_acc_nums_into_batch(acc_nums, batch_size = EFETCH_BATCH_SIZE):
    if type(acc_nums) is set:
        acc_num_set = acc_nums
    else:
        acc_num_set = set(acc_nums)
    acc_num_list = list(acc_num_set)
    acc_num_batches = list()
    acc_num_count = len(acc_num_list)
    extract_start = 0
    while extract_start < acc_num_count:
        extract_end = min((extract_start + batch_size), acc_num_count)
        acc_num_batches.append(acc_num_list[extract_start:extract_end])
        extract_start = extract_end
    return acc_num_batches
```
The while loop is modelled twice, and the two models are proved to agree:
* `chunkAux` is a structurally recursive evaluation of the loop, supplied
  with enough fuel (one unit per iteration; `acc_num_count` units always
  suffice when the batch size is positive);
* `chunkStep` is the loop body as a one-step transition on the loop state
  `(extract_start, acc_num_batches)`, used to reason about termination of
  the unbounded `while` itself (in particular its divergence when
  `batch_size = 0`).
The Python slice `acc_num_list[extract_start:extract_end]` with
`0 <= extract_start <= extract_end <= len` is
`(l.drop extract_start).take (extract_end - extract_start)`.
-/

/-- Fuel-indexed evaluation of the batching `while` loop, starting at index
`start`.  Each recursive call consumes one unit of fuel; when the batch size
is positive, `l.length - start` units are enough (proved below), so the fuel
never runs out on the loop's actual executions. -/
def chunkAux (l : List String) (B : Nat) : Nat → Nat → List (List String)
  | _, 0 => []
  | start, fuel + 1 =>
    if start < l.length then
      (l.drop start).take (min (start + B) l.length - start) ::
        chunkAux l B (min (start + B) l.length) fuel
    else []

/-- `_split_acc_nums_into_batch`: deduplicate the input collection, then cut
the resulting list into consecutive slices of at most `batch_size` elements. -/
def split_acc_nums_into_batch (acc_nums : List String) (batch_size : Nat) :
    List (List String) :=
  chunkAux acc_nums.dedup batch_size 0 acc_nums.dedup.length

/-- One iteration of the batching `while` loop as a transition on the loop
state `(extract_start, acc_num_batches)`; the identity when the loop guard
`extract_start < acc_num_count` is false. -/
def chunkStep (l : List String) (B : Nat) (s : Nat × List (List String)) :
    Nat × List (List String) :=
  if s.1 < l.length then
    (min (s.1 + B) l.length,
      s.2 ++ [(l.drop s.1).take (min (s.1 + B) l.length - s.1)])
  else s

/-- The batching `while` loop diverges on list `l` with batch size `B`: the
loop guard is still true after every number of iterations from the initial
state, so the loop never exits. -/
def chunkLoopDiverges (l : List String) (B : Nat) : Prop :=
  ∀ k, ((chunkStep l B)^[k] (0, [])).1 < l.length

/-- The batch list accumulated by the iterated loop body agrees with the
fuel-indexed evaluation `chunkAux`, one unit of fuel per iteration.  This
holds for every batch size, including `0`. -/
theorem chunkStep_iterate_snd (l : List String) (B : Nat) :
    ∀ (k start : Nat) (acc : List (List String)),
      ((chunkStep l B)^[k] (start, acc)).2 = acc ++ chunkAux l B start k := by
  intro k
  induction k with
  | zero => intro start acc; simp [chunkAux]
  | succ k ih =>
    intro start acc
    rw [Function.iterate_succ_apply]
    by_cases h : start < l.length
    · rw [show chunkStep l B (start, acc) =
          (min (start + B) l.length,
            acc ++ [(l.drop start).take (min (start + B) l.length - start)])
          from by simp [chunkStep, h]]
      rw [ih]
      simp [chunkAux, h]
    · rw [show chunkStep l B (start, acc) = (start, acc) from by
        simp [chunkStep, h]]
      rw [ih]
      cases k with
      | zero => simp [chunkAux, h]
      | succ k => simp [chunkAux, h]

/-- When the loop guard is already false, `chunkAux` returns no batches,
whatever the fuel. -/
theorem chunkAux_of_ge (l : List String) (B : Nat) (start fuel : Nat)
    (h : ¬ start < l.length) : chunkAux l B start fuel = [] := by
  cases fuel with
  | zero => rfl
  | succ fuel => simp [chunkAux, h]

/-- With a positive batch size, `extract_start` after `k` iterations is at
least `min (start + k) l.length`: each iteration that runs advances the
cursor by at least one position. -/
theorem chunkStep_iterate_fst_ge (l : List String) (B : Nat) (hB : 0 < B) :
    ∀ (k : Nat) (s : Nat × List (List String)),
      min (s.1 + k) l.length ≤ ((chunkStep l B)^[k] s).1 := by
  intro k
  induction k with
  | zero => intro s; simp only [Nat.add_zero, Function.iterate_zero, id]; omega
  | succ k ih =>
    intro s
    rw [Function.iterate_succ_apply]
    have h1 : min (s.1 + 1) l.length ≤ (chunkStep l B s).1 := by
      by_cases h : s.1 < l.length
      · simp only [chunkStep, h, if_pos]
        omega
      · simp only [chunkStep, h, if_neg, not_false_iff]
        omega
    have h2 := ih (chunkStep l B s)
    omega

/-- With a positive batch size the batching loop terminates: after
`l.length` iterations the guard is false. -/
theorem chunkLoop_terminates (l : List String) (B : Nat) (hB : 0 < B) :
    ¬ chunkLoopDiverges l B := by
  intro hdiv
  have h := chunkStep_iterate_fst_ge l B hB l.length (0, [])
  have := hdiv l.length
  omega

/-- With batch size `0` and a nonempty list, the batching loop diverges: the
cursor is stuck at `0` and the guard stays true forever. -/
theorem chunkLoop_diverges_of_zero (l : List String) (hl : l ≠ []) :
    chunkLoopDiverges l 0 := by
  have hlen : 0 < l.length := List.length_pos.2 hl
  intro k
  have hfix : ∀ (n : Nat) (acc : List (List String)),
      ((chunkStep l 0)^[n] (0, acc)).1 = 0 := by
    intro n
    induction n with
    | zero => intro acc; rfl
    | succ n ih =>
      intro acc
      rw [Function.iterate_succ_apply]
      rw [show chunkStep l 0 (0, acc) =
          (0, acc ++ [(l.drop 0).take (min (0 + 0) l.length - 0)]) from by
        simp [chunkStep, hlen]]
      exact ih _
  rw [hfix k []]
  exact hlen

/-- The slices produced by the loop, concatenated, rebuild the suffix of the
list from the cursor position, provided the batch size is positive and the
fuel covers the remaining length. -/
theorem chunkAux_flatten (l : List String) (B : Nat) (hB : 0 < B) :
    ∀ (fuel start : Nat), l.length - start ≤ fuel →
      (chunkAux l B start fuel).flatten = l.drop start := by
  intro fuel
  induction fuel with
  | zero =>
    intro start h
    have : l.length ≤ start := by omega
    simp [chunkAux, List.drop_eq_nil_of_le this]
  | succ fuel ih =>
    intro start h
    by_cases hs : start < l.length
    · have he1 : start < min (start + B) l.length := by omega
      have he2 : min (start + B) l.length ≤ l.length := Nat.min_le_right _ _
      simp only [chunkAux, hs, if_pos, List.flatten_cons]
      rw [ih (min (start + B) l.length) (by omega)]
      have hdd : l.drop (min (start + B) l.length) =
          (l.drop start).drop (min (start + B) l.length - start) := by
        rw [List.drop_drop]
        congr 1
        omega
      rw [hdd, List.take_append_drop]
    · simp [chunkAux, hs, List.drop_eq_nil_of_le (by omega : l.length ≤ start)]

/-- Every batch produced by the loop has at most `B` elements and is
nonempty, for every positive batch size and any fuel. -/
theorem chunkAux_mem_length (l : List String) (B : Nat) (hB : 0 < B) :
    ∀ (fuel start : Nat), ∀ b ∈ chunkAux l B start fuel,
      b.length ≤ B ∧ b ≠ [] := by
  intro fuel
  induction fuel with
  | zero => intro start b hb; simp [chunkAux] at hb
  | succ fuel ih =>
    intro start b hb
    by_cases hs : start < l.length
    · simp only [chunkAux, hs, if_pos, List.mem_cons] at hb
      rcases hb with hb | hb
      · subst hb
        constructor
        · simp only [List.length_take, List.length_drop]
          omega
        · have : ((l.drop start).take
              (min (start + B) l.length - start)).length ≠ 0 := by
            simp only [List.length_take, List.length_drop]
            omega
          intro hnil
          rw [hnil] at this
          simp at this
      · exact ih _ b hb
    · simp [chunkAux, hs] at hb

/-- `chunkAux` produces no batches exactly when the loop guard is false or
the fuel is zero. -/
theorem chunkAux_ne_nil_iff (l : List String) (B : Nat) (start fuel : Nat) :
    chunkAux l B start fuel ≠ [] ↔ 0 < fuel ∧ start < l.length := by
  cases fuel with
  | zero => simp [chunkAux]
  | succ fuel =>
    by_cases hs : start < l.length
    · simp [chunkAux, hs]
    · simp [chunkAux, hs]

/-- Every batch except possibly the last has exactly `B` elements: a short
slice is only cut when the cursor would pass the end of the list, after
which the loop stops. -/
theorem chunkAux_dropLast_length (l : List String) (B : Nat) (hB : 0 < B) :
    ∀ (fuel start : Nat), ∀ b ∈ (chunkAux l B start fuel).dropLast,
      b.length = B := by
  intro fuel
  induction fuel with
  | zero => intro start b hb; simp [chunkAux] at hb
  | succ fuel ih =>
    intro start b hb
    by_cases hs : start < l.length
    · simp only [chunkAux, hs, if_pos] at hb
      rcases hrest : chunkAux l B (min (start + B) l.length) fuel with _ | ⟨r, rs⟩
      · rw [hrest] at hb
        simp at hb
      · rw [hrest, List.dropLast_cons₂, List.mem_cons] at hb
        rcases hb with hb | hb
        · subst hb
          have hne : chunkAux l B (min (start + B) l.length) fuel ≠ [] := by
            rw [hrest]; simp
          have := (chunkAux_ne_nil_iff l B _ fuel).1 hne
          have hmin : min (start + B) l.length = start + B := by omega
          simp only [List.length_take, List.length_drop, hmin]
          omega
        · rw [← hrest] at hb
          exact ih _ b hb
    · simp [chunkAux, hs] at hb

/-!
### Effect model

`Env` packages the module's external collaborators: the process-wide
`Entrez.email` configuration, the remote NCBI service (an oracle giving the
outcome of each network attempt, indexed by the global attempt counter), and
the external `EPostParser.parse` (mapping a successful epost response handle
to the `(query_key, web_environment, errors)` triple).

`St` is the observable machine state threaded through the module: the
global network-attempt counter, the ordered trace of observable events
(network attempts, `time.sleep` calls, `ProcLog.log_exec_error` calls, and
`entrez_parser.parse` calls), and the parser sink's accumulated state.
-/

/-- Outcome of one network attempt, supplied by the remote service: a clean
response (carrying an opaque handle token), an `HTTPError` with its status
code and reason, or a `URLError` with its reason. -/
inductive NetOutcome : Type
  | ok (token : Nat)
  | httpErr (code : Nat) (reason : String)
  | urlErr (reason : String)
deriving DecidableEq

/-- The environment: `Entrez.email`, the remote service oracle, and the
external epost-response parser.

Modelled from the spec: `EPostParser` (defined in `EntrezRecordParser`,
which is not part of this module) parses an epost response into the
`(query_key, web_environment, errors)` triple; it is modelled as an
environment-supplied function `epostParse` from the response handle token
to that triple. -/
structure Env : Type where
  email : Option String
  net : Nat → NetOutcome
  epostParse : Nat → Option Nat × Option Nat × Option String

/-- A Python value returned by a fetch wrapper and tested with `is None` by
the orchestrator: a real data handle, `None` itself, or the tuple
`(None, None, None)` — which is *not* `None` for Python's `is None` test. -/
inductive PyVal : Type
  | handle (token : Nat)
  | pyNone
  | noneTriple
deriving DecidableEq

/-- An observable event of the module: a network attempt (epost, efetch
after epost, or direct efetch), a `time.sleep`, a `ProcLog.log_exec_error`,
or an `entrez_parser.parse` call with the value passed to it. -/
inductive Event : Type
  | netPost (db : String) (ids : List String)
  | netFetchHist (db : String) (fetchStart : Nat)
  | netFetchDirect (db : String) (ids : List String)
  | sleepSec (n : Nat)
  | logExecError (msg : String)
  | parseCall (v : PyVal)
deriving DecidableEq

/-- Observable machine state: global network-attempt counter, event trace
(in chronological order), and the parser sink's accumulated state. -/
structure St (σ : Type) : Type where
  callIdx : Nat
  events : List Event
  sink : σ
deriving DecidableEq

/-- The parser sink consumed by the orchestrator.

Modelled from the spec: the concrete sinks (`FeatTblCDSParser`,
`ProteinXMLParser`, `ProteinSeqParser`, `DocSummaryParser`, defined in
`EntrezRecordParser`, which is not part of this module) are external; each
is represented by its `parse` action on its accumulated state, whether it
exposes an `is_parse_complete` attribute (`hasattr` in the source), and the
value of that attribute as a function of the accumulated state. -/
structure ParserSink (σ : Type) : Type where
  parse : σ → PyVal → σ
  hasCompleteAttr : Bool
  isParseComplete : σ → Bool

/-- `ProcLog.log_exec_error`: append a diagnostic to the trace. -/
def log_exec_error {σ : Type} (msg : String) (st : St σ) : St σ :=
  ⟨st.callIdx, st.events ++ [Event.logExecError msg], st.sink⟩

/-- Perform one network attempt: record the event, advance the global
attempt counter, and read the outcome from the environment oracle. -/
def netCall {σ : Type} (env : Env) (e : Event) (st : St σ) :
    NetOutcome × St σ :=
  (env.net st.callIdx, ⟨st.callIdx + 1, st.events ++ [e], st.sink⟩)

/-!
### `_entrez_post`

Attempt loop of `_entrez_post`, indexed by the number of attempts still
allowed (`MAX_ATTEMPT - attempt` in the source).  On a clean response the
parsed triple is returned; on an `HTTPError` with code in 400–599 the loop
sleeps 20 seconds and retries; on any other `HTTPError` or a `URLError` it
logs and returns `(None, None, None)`; when the attempts run out it logs
the exhaustion diagnostic and returns `(None, None, None)`.
-/

/-- The retry loop of `_entrez_post`. -/
def entrez_post_attempts {σ : Type} (env : Env) (db : String)
    (acc_nums : List String) :
    Nat → St σ → (Option Nat × Option Nat × Option String) × St σ
  | 0, st =>
    ((none, none, none),
      log_exec_error "Attempted epost() 3 times and failed" st)
  | fuel + 1, st =>
    let r := netCall env (Event.netPost db acc_nums) st
    match r.1 with
    | NetOutcome.ok token => (env.epostParse token, r.2)
    | NetOutcome.httpErr code reason =>
      if 400 ≤ code ∧ code ≤ 599 then
        entrez_post_attempts env db acc_nums fuel
          ⟨r.2.callIdx, r.2.events ++ [Event.sleepSec 20], r.2.sink⟩
      else
        ((none, none, none), log_exec_error ("epost(): " ++ reason) r.2)
    | NetOutcome.urlErr reason =>
      ((none, none, none), log_exec_error ("epost(): " ++ reason) r.2)

/-- `_entrez_post`: check `Entrez.email`, then run the retry loop with
`MAX_ATTEMPT` attempts allowed. -/
def entrez_post {σ : Type} (env : Env) (db : String) (acc_nums : List String)
    (st : St σ) : (Option Nat × Option Nat × Option String) × St σ :=
  match env.email with
  | none =>
    ((none, none, none),
      log_exec_error "Email address for Entrez is not set" st)
  | some _ => entrez_post_attempts env db acc_nums MAX_ATTEMPT st

/-!
### `_entrez_fetch_hist`

Same retry loop for the efetch-after-epost action.  Note that the source
function performs *no* `Entrez.email` check.  Its failure value is `None`.
-/

/-- The retry loop of `_entrez_fetch_hist`. -/
def entrez_fetch_hist_attempts {σ : Type} (env : Env) (db : String)
    (fetch_start : Nat) : Nat → St σ → PyVal × St σ
  | 0, st =>
    (PyVal.pyNone, log_exec_error "Attempted efetch() 3 times and failed" st)
  | fuel + 1, st =>
    let r := netCall env (Event.netFetchHist db fetch_start) st
    match r.1 with
    | NetOutcome.ok token => (PyVal.handle token, r.2)
    | NetOutcome.httpErr code reason =>
      if 400 ≤ code ∧ code ≤ 599 then
        entrez_fetch_hist_attempts env db fetch_start fuel
          ⟨r.2.callIdx, r.2.events ++ [Event.sleepSec 20], r.2.sink⟩
      else
        (PyVal.pyNone, log_exec_error ("efetch(): " ++ reason) r.2)
    | NetOutcome.urlErr reason =>
      (PyVal.pyNone, log_exec_error ("efetch(): " ++ reason) r.2)

/-- `_entrez_fetch_hist`: run the retry loop with `MAX_ATTEMPT` attempts
allowed.  The source performs no `Entrez.email` check here. -/
def entrez_fetch_hist {σ : Type} (env : Env) (db : String)
    (efetch_query_key : Option Nat) (web_env : Option Nat)
    (return_section : String) (return_type : String) (fetch_start : Nat)
    (st : St σ) : PyVal × St σ :=
  entrez_fetch_hist_attempts env db fetch_start MAX_ATTEMPT st

/-!
### `_entrez_fetch`

Direct efetch.  When `Entrez.email` is unset this function logs the
configuration diagnostic and returns the *tuple* `(None, None, None)` — a
value that Python's `is None` test does not recognize as `None`.  Its other
failure paths return `None`.
-/

/-- The retry loop of `_entrez_fetch`. -/
def entrez_fetch_attempts {σ : Type} (env : Env) (db : String)
    (acc_nums : List String) : Nat → St σ → PyVal × St σ
  | 0, st =>
    (PyVal.pyNone, log_exec_error "Attempted efetch() 3 times and failed" st)
  | fuel + 1, st =>
    let r := netCall env (Event.netFetchDirect db acc_nums) st
    match r.1 with
    | NetOutcome.ok token => (PyVal.handle token, r.2)
    | NetOutcome.httpErr code reason =>
      if 400 ≤ code ∧ code ≤ 599 then
        entrez_fetch_attempts env db acc_nums fuel
          ⟨r.2.callIdx, r.2.events ++ [Event.sleepSec 20], r.2.sink⟩
      else
        (PyVal.pyNone, log_exec_error ("efetch(): " ++ reason) r.2)
    | NetOutcome.urlErr reason =>
      (PyVal.pyNone, log_exec_error ("efetch(): " ++ reason) r.2)

/-- `_entrez_fetch`: check `Entrez.email` (returning the tuple
`(None, None, None)` when unset), then run the retry loop. -/
def entrez_fetch {σ : Type} (env : Env) (db : String)
    (acc_nums : List String) (return_section : String)
    (return_type : String) (st : St σ) : PyVal × St σ :=
  match env.email with
  | none =>
    (PyVal.noneTriple,
      log_exec_error "Email address for Entrez is not set" st)
  | some _ => entrez_fetch_attempts env db acc_nums MAX_ATTEMPT st

/-!
### `_search_entrez`

The orchestrator.  Its two loops (bulk epost/efetch path over non-WGS
accession numbers, then direct efetch path over WGS accession numbers) are
modelled by structural recursion over the batch list produced by
`split_acc_nums_into_batch`; the inner pagination `while` loop is modelled
by recursion over the iteration count `fetch_iter - i`, which the source
fixes in advance as `ceil(len(batch) / EFETCH_BATCH_SIZE)`.  Each loop
function returns the resulting state together with `true` when the source
executed `return` inside the loop (aborting the whole orchestration).

The WGS / non-WGS classification `split_wgs_acc_nums` lives in
`ArgditLib/Utils.py`, outside this module; it is passed in as the function
argument `splitWgs`, returning `(wgs_acc_nums, non_wgs_acc_nums)`.
-/

/-- The inner pagination loop of `_search_entrez`: fetch `remaining` more
pages starting at offset `fetch_start`, feeding each handle to the parser
sink and honoring its completeness flag.  Returns the final state and
whether the orchestration was aborted. -/
def fetch_pages {σ : Type} (env : Env) (sink : ParserSink σ) (db : String)
    (efetch_query_key : Option Nat) (web_env : Option Nat)
    (return_section : String) (return_type : String) :
    Nat → Nat → St σ → St σ × Bool
  | 0, _, st => (st, false)
  | remaining + 1, fetch_start, st =>
    let r := entrez_fetch_hist env db efetch_query_key web_env
      return_section return_type fetch_start st
    if r.1 = PyVal.pyNone then (r.2, true)
    else
      let st1 : St σ := ⟨r.2.callIdx, r.2.events ++ [Event.parseCall r.1],
        sink.parse r.2.sink r.1⟩
      if sink.hasCompleteAttr && !(sink.isParseComplete st1.sink) then
        (st1, true)
      else
        fetch_pages env sink db efetch_query_key web_env return_section
          return_type remaining (fetch_start + EFETCH_BATCH_SIZE) st1

/-- The bulk (epost then paginated efetch) loop of `_search_entrez` over the
non-WGS batches.  Returns the final state and whether the orchestration was
aborted. -/
def post_batches {σ : Type} (env : Env) (sink : ParserSink σ) (db : String)
    (return_section : String) (return_type : String) :
    List (List String) → St σ → St σ × Bool
  | [], st => (st, false)
  | batch :: rest, st =>
    let r := entrez_post env db batch st
    match r.1.1 with
    | none => (r.2, true)
    | some _ =>
      let fetch_iter :=
        (batch.length + EFETCH_BATCH_SIZE - 1) / EFETCH_BATCH_SIZE
      let p := fetch_pages env sink db r.1.1 r.1.2.1 return_section
        return_type fetch_iter 0 r.2
      if p.2 then (p.1, true)
      else
        post_batches env sink db return_section return_type rest
          ⟨p.1.callIdx, p.1.events ++ [Event.sleepSec 3], p.1.sink⟩

/-- The direct efetch loop of `_search_entrez` over the WGS batches.
Returns the final state and whether the orchestration was aborted. -/
def direct_batches {σ : Type} (env : Env) (sink : ParserSink σ) (db : String)
    (return_section : String) (return_type : String) :
    List (List String) → St σ → St σ × Bool
  | [], st => (st, false)
  | batch :: rest, st =>
    let r := entrez_fetch env db batch return_section return_type st
    if r.1 = PyVal.pyNone then (r.2, true)
    else
      let st1 : St σ := ⟨r.2.callIdx, r.2.events ++ [Event.parseCall r.1],
        sink.parse r.2.sink r.1⟩
      if sink.hasCompleteAttr && !(sink.isParseComplete st1.sink) then
        (st1, true)
      else
        direct_batches env sink db return_section return_type rest
          ⟨st1.callIdx, st1.events ++ [Event.sleepSec 5], st1.sink⟩

/-- `_search_entrez`: split the accession numbers into WGS and non-WGS
(`splitWgs` returns `(wgs_acc_nums, non_wgs_acc_nums)`), run the bulk path
over the non-WGS batches, and — unless the bulk path aborted — run the
direct path over the WGS batches. -/
def search_entrez {σ : Type} (env : Env)
    (splitWgs : List String → List String × List String)
    (acc_nums : List String) (sink : ParserSink σ) (db : String)
    (return_section : String) (return_type : String)
    (epost_batch_size : Nat) (st : St σ) : St σ :=
  let r := post_batches env sink db return_section return_type
    (split_acc_nums_into_batch (splitWgs acc_nums).2 epost_batch_size) st
  if r.2 then r.1
  else
    (direct_batches env sink db return_section return_type
      (split_acc_nums_into_batch (splitWgs acc_nums).1 EFETCH_BATCH_SIZE)
      r.1).1

/-!
### Public search operations

Each public operation constructs a fresh parser sink and runs
`_search_entrez` with a fixed `(db, section, format, batch size)` tuple,
then reads the results back from the sink.

Modelled from the spec: the concrete sink classes are external (defined in
`EntrezRecordParser`, not part of this module), so each operation takes the
sink's behaviour (`sink`) and its freshly-constructed initial accumulated
state (`init`) as arguments and returns the final machine state, from which
the caller reads the sink's accumulated results.  The classifier
`split_wgs_acc_nums` (from `ArgditLib/Utils.py`, also not part of this
module) is likewise passed in as `splitWgs`. -/

/-- `search_target_cds_by_nt_acc_num`: feature-table CDS search over the
`nucleotide` database (`ft` / `text`, epost batch size
`EPOST_FT_BATCH_SIZE`). -/
def search_target_cds_by_nt_acc_num {σ : Type} (env : Env)
    (splitWgs : List String → List String × List String)
    (sink : ParserSink σ) (init : σ) (nt_acc_nums : List String) : St σ :=
  search_entrez env splitWgs nt_acc_nums sink "nucleotide" "ft" "text"
    EPOST_FT_BATCH_SIZE ⟨0, [], init⟩

/-- `search_protein_info`: protein record search over the `protein`
database (`gp` / `xml`, default epost batch size). -/
def search_protein_info {σ : Type} (env : Env)
    (splitWgs : List String → List String × List String)
    (sink : ParserSink σ) (init : σ) (protein_acc_nums : List String) :
    St σ :=
  search_entrez env splitWgs protein_acc_nums sink "protein" "gp" "xml"
    EPOST_SEQ_BATCH_SIZE ⟨0, [], init⟩

/-- `search_protein_seqs`: protein sequence search over the `protein`
database (`fasta` / `text`, default epost batch size). -/
def search_protein_seqs {σ : Type} (env : Env)
    (splitWgs : List String → List String × List String)
    (sink : ParserSink σ) (init : σ) (protein_acc_nums : List String) :
    St σ :=
  search_entrez env splitWgs protein_acc_nums sink "protein" "fasta" "text"
    EPOST_SEQ_BATCH_SIZE ⟨0, [], init⟩

/-- `_search_seq_status`: document-summary search over the given database
(`docsum` / `xml`, default epost batch size). -/
def search_seq_status {σ : Type} (env : Env)
    (splitWgs : List String → List String × List String)
    (sink : ParserSink σ) (init : σ) (acc_nums : List String)
    (db : String) : St σ :=
  search_entrez env splitWgs acc_nums sink db "docsum" "xml"
    EPOST_SEQ_BATCH_SIZE ⟨0, [], init⟩

/-- `search_nucleotide_seq_status`. -/
def search_nucleotide_seq_status {σ : Type} (env : Env)
    (splitWgs : List String → List String × List String)
    (sink : ParserSink σ) (init : σ) (nt_acc_nums : List String) : St σ :=
  search_seq_status env splitWgs sink init nt_acc_nums "nucleotide"

/-- `search_protein_seq_status`. -/
def search_protein_seq_status {σ : Type} (env : Env)
    (splitWgs : List String → List String × List String)
    (sink : ParserSink σ) (init : σ) (protein_acc_nums : List String) :
    St σ :=
  search_seq_status env splitWgs sink init protein_acc_nums "protein"

/-!
### Trace observables
-/

/-- The offsets (`retstart` values) of the paginated efetch attempts in a
trace, in order. -/
def fetchHistOffsets (events : List Event) : List Nat :=
  events.filterMap fun e =>
    match e with
    | Event.netFetchHist _ fs => some fs
    | _ => none

/-- Whether an event is a network attempt. -/
def isNetEvent : Event → Bool
  | Event.netPost _ _ => true
  | Event.netFetchHist _ _ => true
  | Event.netFetchDirect _ _ => true
  | _ => false

/-!
### Step lemmas for the retry loops
-/

/-- A clean response returns the parsed triple after one attempt. -/
theorem entrez_post_attempts_ok {σ : Type} (env : Env) (db : String)
    (ids : List String) (fuel : Nat) (st : St σ) (t : Nat)
    (h : env.net st.callIdx = NetOutcome.ok t) :
    entrez_post_attempts env db ids (fuel + 1) st =
      (env.epostParse t,
        ⟨st.callIdx + 1, st.events ++ [Event.netPost db ids], st.sink⟩) := by
  simp [entrez_post_attempts, netCall, h]

/-- A transient `HTTPError` (status 400–599) sleeps 20 seconds and retries
with one fewer attempt allowed. -/
theorem entrez_post_attempts_transient {σ : Type} (env : Env) (db : String)
    (ids : List String) (fuel : Nat) (st : St σ) (c : Nat) (r : String)
    (h : env.net st.callIdx = NetOutcome.httpErr c r) (h4 : 400 ≤ c)
    (h5 : c ≤ 599) :
    entrez_post_attempts env db ids (fuel + 1) st =
      entrez_post_attempts env db ids fuel
        ⟨st.callIdx + 1,
          st.events ++ [Event.netPost db ids, Event.sleepSec 20],
          st.sink⟩ := by
  simp [entrez_post_attempts, netCall, h, h4, h5]

/-- An `HTTPError` with status outside 400–599 logs and fails after exactly
this one attempt. -/
theorem entrez_post_attempts_fatalHttp {σ : Type} (env : Env) (db : String)
    (ids : List String) (fuel : Nat) (st : St σ) (c : Nat) (r : String)
    (h : env.net st.callIdx = NetOutcome.httpErr c r)
    (hc : ¬ (400 ≤ c ∧ c ≤ 599)) :
    entrez_post_attempts env db ids (fuel + 1) st =
      ((none, none, none),
        ⟨st.callIdx + 1,
          st.events ++ [Event.netPost db ids,
            Event.logExecError ("epost(): " ++ r)],
          st.sink⟩) := by
  simp [entrez_post_attempts, netCall, h, hc, log_exec_error]

/-- A `URLError` logs and fails after exactly this one attempt. -/
theorem entrez_post_attempts_url {σ : Type} (env : Env) (db : String)
    (ids : List String) (fuel : Nat) (st : St σ) (r : String)
    (h : env.net st.callIdx = NetOutcome.urlErr r) :
    entrez_post_attempts env db ids (fuel + 1) st =
      ((none, none, none),
        ⟨st.callIdx + 1,
          st.events ++ [Event.netPost db ids,
            Event.logExecError ("epost(): " ++ r)],
          st.sink⟩) := by
  simp [entrez_post_attempts, netCall, h, log_exec_error]

/-- A clean response returns the data handle after one attempt. -/
theorem entrez_fetch_hist_attempts_ok {σ : Type} (env : Env) (db : String)
    (fs fuel : Nat) (st : St σ) (t : Nat)
    (h : env.net st.callIdx = NetOutcome.ok t) :
    entrez_fetch_hist_attempts env db fs (fuel + 1) st =
      (PyVal.handle t,
        ⟨st.callIdx + 1, st.events ++ [Event.netFetchHist db fs],
          st.sink⟩) := by
  simp [entrez_fetch_hist_attempts, netCall, h]

/-- A transient `HTTPError` sleeps 20 seconds and retries with one fewer
attempt allowed. -/
theorem entrez_fetch_hist_attempts_transient {σ : Type} (env : Env)
    (db : String) (fs fuel : Nat) (st : St σ) (c : Nat) (r : String)
    (h : env.net st.callIdx = NetOutcome.httpErr c r) (h4 : 400 ≤ c)
    (h5 : c ≤ 599) :
    entrez_fetch_hist_attempts env db fs (fuel + 1) st =
      entrez_fetch_hist_attempts env db fs fuel
        ⟨st.callIdx + 1,
          st.events ++ [Event.netFetchHist db fs, Event.sleepSec 20],
          st.sink⟩ := by
  simp [entrez_fetch_hist_attempts, netCall, h, h4, h5]

/-- An `HTTPError` with status outside 400–599 logs and fails after exactly
this one attempt. -/
theorem entrez_fetch_hist_attempts_fatalHttp {σ : Type} (env : Env)
    (db : String) (fs fuel : Nat) (st : St σ) (c : Nat) (r : String)
    (h : env.net st.callIdx = NetOutcome.httpErr c r)
    (hc : ¬ (400 ≤ c ∧ c ≤ 599)) :
    entrez_fetch_hist_attempts env db fs (fuel + 1) st =
      (PyVal.pyNone,
        ⟨st.callIdx + 1,
          st.events ++ [Event.netFetchHist db fs,
            Event.logExecError ("efetch(): " ++ r)],
          st.sink⟩) := by
  simp [entrez_fetch_hist_attempts, netCall, h, hc, log_exec_error]

/-- A `URLError` logs and fails after exactly this one attempt. -/
theorem entrez_fetch_hist_attempts_url {σ : Type} (env : Env) (db : String)
    (fs fuel : Nat) (st : St σ) (r : String)
    (h : env.net st.callIdx = NetOutcome.urlErr r) :
    entrez_fetch_hist_attempts env db fs (fuel + 1) st =
      (PyVal.pyNone,
        ⟨st.callIdx + 1,
          st.events ++ [Event.netFetchHist db fs,
            Event.logExecError ("efetch(): " ++ r)],
          st.sink⟩) := by
  simp [entrez_fetch_hist_attempts, netCall, h, log_exec_error]

/-- A clean response returns the data handle after one attempt. -/
theorem entrez_fetch_attempts_ok {σ : Type} (env : Env) (db : String)
    (ids : List String) (fuel : Nat) (st : St σ) (t : Nat)
    (h : env.net st.callIdx = NetOutcome.ok t) :
    entrez_fetch_attempts env db ids (fuel + 1) st =
      (PyVal.handle t,
        ⟨st.callIdx + 1, st.events ++ [Event.netFetchDirect db ids],
          st.sink⟩) := by
  simp [entrez_fetch_attempts, netCall, h]

/-- A transient `HTTPError` sleeps 20 seconds and retries with one fewer
attempt allowed. -/
theorem entrez_fetch_attempts_transient {σ : Type} (env : Env) (db : String)
    (ids : List String) (fuel : Nat) (st : St σ) (c : Nat) (r : String)
    (h : env.net st.callIdx = NetOutcome.httpErr c r) (h4 : 400 ≤ c)
    (h5 : c ≤ 599) :
    entrez_fetch_attempts env db ids (fuel + 1) st =
      entrez_fetch_attempts env db ids fuel
        ⟨st.callIdx + 1,
          st.events ++ [Event.netFetchDirect db ids, Event.sleepSec 20],
          st.sink⟩ := by
  simp [entrez_fetch_attempts, netCall, h, h4, h5]

/-- An `HTTPError` with status outside 400–599 logs and fails after exactly
this one attempt. -/
theorem entrez_fetch_attempts_fatalHttp {σ : Type} (env : Env) (db : String)
    (ids : List String) (fuel : Nat) (st : St σ) (c : Nat) (r : String)
    (h : env.net st.callIdx = NetOutcome.httpErr c r)
    (hc : ¬ (400 ≤ c ∧ c ≤ 599)) :
    entrez_fetch_attempts env db ids (fuel + 1) st =
      (PyVal.pyNone,
        ⟨st.callIdx + 1,
          st.events ++ [Event.netFetchDirect db ids,
            Event.logExecError ("efetch(): " ++ r)],
          st.sink⟩) := by
  simp [entrez_fetch_attempts, netCall, h, hc, log_exec_error]

/-- A `URLError` logs and fails after exactly this one attempt. -/
theorem entrez_fetch_attempts_url {σ : Type} (env : Env) (db : String)
    (ids : List String) (fuel : Nat) (st : St σ) (r : String)
    (h : env.net st.callIdx = NetOutcome.urlErr r) :
    entrez_fetch_attempts env db ids (fuel + 1) st =
      (PyVal.pyNone,
        ⟨st.callIdx + 1,
          st.events ++ [Event.netFetchDirect db ids,
            Event.logExecError ("efetch(): " ++ r)],
          st.sink⟩) := by
  simp [entrez_fetch_attempts, netCall, h, log_exec_error]

/-!
### Whole-call behaviour of the three wrappers
-/

/-- `_entrez_post` with `Entrez.email` unset: configuration diagnostic, no
network attempt, failure triple. -/
theorem entrez_post_email_none {σ : Type} (env : Env) (db : String)
    (ids : List String) (st : St σ) (hm : env.email = none) :
    entrez_post env db ids st =
      ((none, none, none),
        ⟨st.callIdx,
          st.events ++
            [Event.logExecError "Email address for Entrez is not set"],
          st.sink⟩) := by
  simp [entrez_post, hm, log_exec_error]

/-- `_entrez_fetch` with `Entrez.email` unset: configuration diagnostic, no
network attempt, and the failure value is the tuple `(None, None, None)`,
not `None`. -/
theorem entrez_fetch_email_none {σ : Type} (env : Env) (db : String)
    (ids : List String) (sec typ : String) (st : St σ)
    (hm : env.email = none) :
    entrez_fetch env db ids sec typ st =
      (PyVal.noneTriple,
        ⟨st.callIdx,
          st.events ++
            [Event.logExecError "Email address for Entrez is not set"],
          st.sink⟩) := by
  simp [entrez_fetch, hm, log_exec_error]

/-- `_entrez_fetch_hist` ignores `Entrez.email` entirely: its behaviour is
the same in two environments differing only in the email field. -/
theorem entrez_fetch_hist_email_irrelevant {σ : Type} (env : Env)
    (em : Option String) (db : String) (qk we : Option Nat)
    (sec typ : String) (fs : Nat) (st : St σ) :
    entrez_fetch_hist ⟨em, env.net, env.epostParse⟩ db qk we sec typ fs st =
      entrez_fetch_hist env db qk we sec typ fs st := by
  have haux : ∀ (fuel : Nat) (st : St σ),
      entrez_fetch_hist_attempts ⟨em, env.net, env.epostParse⟩ db fs fuel st =
        entrez_fetch_hist_attempts env db fs fuel st := by
    intro fuel
    induction fuel with
    | zero => intro st; rfl
    | succ fuel ih =>
      intro st
      simp only [entrez_fetch_hist_attempts, netCall]
      rcases env.net st.callIdx with _ | ⟨c, r⟩ | r
      · rfl
      · by_cases hc : 400 ≤ c ∧ c ≤ 599
        · simp only [hc, if_pos, ih]
        · simp only [hc, if_neg, not_false_iff]
      · rfl
  exact haux MAX_ATTEMPT st

/-- `_entrez_post` with `Entrez.email` set and a clean first response:
exactly one network attempt, returning the parsed triple. -/
theorem entrez_post_ok {σ : Type} (env : Env) (e db : String)
    (ids : List String) (st : St σ) (t : Nat) (hm : env.email = some e)
    (h : env.net st.callIdx = NetOutcome.ok t) :
    entrez_post env db ids st =
      (env.epostParse t,
        ⟨st.callIdx + 1, st.events ++ [Event.netPost db ids], st.sink⟩) := by
  simp only [entrez_post, hm]
  rw [show MAX_ATTEMPT = 2 + 1 from rfl]
  exact entrez_post_attempts_ok env db ids 2 st t h

/-- `_entrez_fetch_hist` with a clean first response: exactly one network
attempt, returning the data handle. -/
theorem entrez_fetch_hist_ok {σ : Type} (env : Env) (db : String)
    (qk we : Option Nat) (sec typ : String) (fs : Nat) (st : St σ) (t : Nat)
    (h : env.net st.callIdx = NetOutcome.ok t) :
    entrez_fetch_hist env db qk we sec typ fs st =
      (PyVal.handle t,
        ⟨st.callIdx + 1, st.events ++ [Event.netFetchHist db fs],
          st.sink⟩) := by
  simp only [entrez_fetch_hist]
  rw [show MAX_ATTEMPT = 2 + 1 from rfl]
  exact entrez_fetch_hist_attempts_ok env db fs 2 st t h

/-- `_entrez_fetch` with `Entrez.email` set and a clean first response:
exactly one network attempt, returning the data handle. -/
theorem entrez_fetch_ok {σ : Type} (env : Env) (e db : String)
    (ids : List String) (sec typ : String) (st : St σ) (t : Nat)
    (hm : env.email = some e) (h : env.net st.callIdx = NetOutcome.ok t) :
    entrez_fetch env db ids sec typ st =
      (PyVal.handle t,
        ⟨st.callIdx + 1, st.events ++ [Event.netFetchDirect db ids],
          st.sink⟩) := by
  simp only [entrez_fetch, hm]
  rw [show MAX_ATTEMPT = 2 + 1 from rfl]
  exact entrez_fetch_attempts_ok env db ids 2 st t h

/-- `_entrez_post` when every attempt fails transiently: exactly
`MAX_ATTEMPT = 3` network attempts, each followed by a 20-second sleep,
then the exhaustion diagnostic and the failure triple. -/
theorem entrez_post_run_transient {σ : Type} (env : Env) (e db : String)
    (ids : List String) (st : St σ) (hm : env.email = some e)
    (ht : ∀ k, ∃ c r, env.net k = NetOutcome.httpErr c r ∧ 400 ≤ c ∧ c ≤ 599) :
    entrez_post env db ids st =
      ((none, none, none),
        ⟨st.callIdx + 3,
          st.events ++ [Event.netPost db ids, Event.sleepSec 20,
            Event.netPost db ids, Event.sleepSec 20,
            Event.netPost db ids, Event.sleepSec 20,
            Event.logExecError "Attempted epost() 3 times and failed"],
          st.sink⟩) := by
  obtain ⟨c0, r0, h0, h04, h05⟩ := ht st.callIdx
  obtain ⟨c1, r1, h1, h14, h15⟩ := ht (st.callIdx + 1)
  obtain ⟨c2, r2, h2, h24, h25⟩ := ht (st.callIdx + 1 + 1)
  simp only [entrez_post, hm]
  rw [show MAX_ATTEMPT = 2 + 1 from rfl]
  rw [entrez_post_attempts_transient env db ids 2 st c0 r0 h0 h04 h05]
  rw [show (2 : Nat) = 1 + 1 from rfl]
  rw [entrez_post_attempts_transient env db ids 1 _ c1 r1 h1 h14 h15]
  rw [show (1 : Nat) = 0 + 1 from rfl]
  rw [entrez_post_attempts_transient env db ids 0 _ c2 r2 h2 h24 h25]
  simp [entrez_post_attempts, log_exec_error]

/-- `_entrez_fetch_hist` when every attempt fails transiently: exactly 3
network attempts, each followed by a 20-second sleep, then the exhaustion
diagnostic and `None`. -/
theorem entrez_fetch_hist_run_transient {σ : Type} (env : Env) (db : String)
    (qk we : Option Nat) (sec typ : String) (fs : Nat) (st : St σ)
    (ht : ∀ k, ∃ c r, env.net k = NetOutcome.httpErr c r ∧ 400 ≤ c ∧ c ≤ 599) :
    entrez_fetch_hist env db qk we sec typ fs st =
      (PyVal.pyNone,
        ⟨st.callIdx + 3,
          st.events ++ [Event.netFetchHist db fs, Event.sleepSec 20,
            Event.netFetchHist db fs, Event.sleepSec 20,
            Event.netFetchHist db fs, Event.sleepSec 20,
            Event.logExecError "Attempted efetch() 3 times and failed"],
          st.sink⟩) := by
  obtain ⟨c0, r0, h0, h04, h05⟩ := ht st.callIdx
  obtain ⟨c1, r1, h1, h14, h15⟩ := ht (st.callIdx + 1)
  obtain ⟨c2, r2, h2, h24, h25⟩ := ht (st.callIdx + 1 + 1)
  simp only [entrez_fetch_hist]
  rw [show MAX_ATTEMPT = 2 + 1 from rfl]
  rw [entrez_fetch_hist_attempts_transient env db fs 2 st c0 r0 h0 h04 h05]
  rw [show (2 : Nat) = 1 + 1 from rfl]
  rw [entrez_fetch_hist_attempts_transient env db fs 1 _ c1 r1 h1 h14 h15]
  rw [show (1 : Nat) = 0 + 1 from rfl]
  rw [entrez_fetch_hist_attempts_transient env db fs 0 _ c2 r2 h2 h24 h25]
  simp [entrez_fetch_hist_attempts, log_exec_error]

/-- `_entrez_fetch` when every attempt fails transiently: exactly 3 network
attempts, each followed by a 20-second sleep, then the exhaustion
diagnostic and `None`. -/
theorem entrez_fetch_run_transient {σ : Type} (env : Env) (e db : String)
    (ids : List String) (sec typ : String) (st : St σ)
    (hm : env.email = some e)
    (ht : ∀ k, ∃ c r, env.net k = NetOutcome.httpErr c r ∧ 400 ≤ c ∧ c ≤ 599) :
    entrez_fetch env db ids sec typ st =
      (PyVal.pyNone,
        ⟨st.callIdx + 3,
          st.events ++ [Event.netFetchDirect db ids, Event.sleepSec 20,
            Event.netFetchDirect db ids, Event.sleepSec 20,
            Event.netFetchDirect db ids, Event.sleepSec 20,
            Event.logExecError "Attempted efetch() 3 times and failed"],
          st.sink⟩) := by
  obtain ⟨c0, r0, h0, h04, h05⟩ := ht st.callIdx
  obtain ⟨c1, r1, h1, h14, h15⟩ := ht (st.callIdx + 1)
  obtain ⟨c2, r2, h2, h24, h25⟩ := ht (st.callIdx + 1 + 1)
  simp only [entrez_fetch, hm]
  rw [show MAX_ATTEMPT = 2 + 1 from rfl]
  rw [entrez_fetch_attempts_transient env db ids 2 st c0 r0 h0 h04 h05]
  rw [show (2 : Nat) = 1 + 1 from rfl]
  rw [entrez_fetch_attempts_transient env db ids 1 _ c1 r1 h1 h14 h15]
  rw [show (1 : Nat) = 0 + 1 from rfl]
  rw [entrez_fetch_attempts_transient env db ids 0 _ c2 r2 h2 h24 h25]
  simp [entrez_fetch_attempts, log_exec_error]

/-- `_entrez_post` whose first attempt fails fatally (`HTTPError` outside
400–599): exactly one network attempt, then the diagnostic and failure. -/
theorem entrez_post_run_fatalHttp {σ : Type} (env : Env) (e db : String)
    (ids : List String) (st : St σ) (c : Nat) (r : String)
    (hm : env.email = some e)
    (h : env.net st.callIdx = NetOutcome.httpErr c r)
    (hc : ¬ (400 ≤ c ∧ c ≤ 599)) :
    entrez_post env db ids st =
      ((none, none, none),
        ⟨st.callIdx + 1,
          st.events ++ [Event.netPost db ids,
            Event.logExecError ("epost(): " ++ r)],
          st.sink⟩) := by
  simp only [entrez_post, hm]
  rw [show MAX_ATTEMPT = 2 + 1 from rfl]
  exact entrez_post_attempts_fatalHttp env db ids 2 st c r h hc

/-- `_entrez_post` whose first attempt fails with a `URLError`: exactly one
network attempt, then the diagnostic and failure. -/
theorem entrez_post_run_url {σ : Type} (env : Env) (e db : String)
    (ids : List String) (st : St σ) (r : String) (hm : env.email = some e)
    (h : env.net st.callIdx = NetOutcome.urlErr r) :
    entrez_post env db ids st =
      ((none, none, none),
        ⟨st.callIdx + 1,
          st.events ++ [Event.netPost db ids,
            Event.logExecError ("epost(): " ++ r)],
          st.sink⟩) := by
  simp only [entrez_post, hm]
  rw [show MAX_ATTEMPT = 2 + 1 from rfl]
  exact entrez_post_attempts_url env db ids 2 st r h

/-- `_entrez_fetch_hist` whose first attempt fails fatally: exactly one
network attempt, then the diagnostic and `None`. -/
theorem entrez_fetch_hist_run_fatalHttp {σ : Type} (env : Env) (db : String)
    (qk we : Option Nat) (sec typ : String) (fs : Nat) (st : St σ) (c : Nat)
    (r : String) (h : env.net st.callIdx = NetOutcome.httpErr c r)
    (hc : ¬ (400 ≤ c ∧ c ≤ 599)) :
    entrez_fetch_hist env db qk we sec typ fs st =
      (PyVal.pyNone,
        ⟨st.callIdx + 1,
          st.events ++ [Event.netFetchHist db fs,
            Event.logExecError ("efetch(): " ++ r)],
          st.sink⟩) := by
  simp only [entrez_fetch_hist]
  rw [show MAX_ATTEMPT = 2 + 1 from rfl]
  exact entrez_fetch_hist_attempts_fatalHttp env db fs 2 st c r h hc

/-- `_entrez_fetch_hist` whose first attempt fails with a `URLError`:
exactly one network attempt, then the diagnostic and `None`. -/
theorem entrez_fetch_hist_run_url {σ : Type} (env : Env) (db : String)
    (qk we : Option Nat) (sec typ : String) (fs : Nat) (st : St σ)
    (r : String) (h : env.net st.callIdx = NetOutcome.urlErr r) :
    entrez_fetch_hist env db qk we sec typ fs st =
      (PyVal.pyNone,
        ⟨st.callIdx + 1,
          st.events ++ [Event.netFetchHist db fs,
            Event.logExecError ("efetch(): " ++ r)],
          st.sink⟩) := by
  simp only [entrez_fetch_hist]
  rw [show MAX_ATTEMPT = 2 + 1 from rfl]
  exact entrez_fetch_hist_attempts_url env db fs 2 st r h

/-- `_entrez_fetch` whose first attempt fails fatally: exactly one network
attempt, then the diagnostic and `None`. -/
theorem entrez_fetch_run_fatalHttp {σ : Type} (env : Env) (e db : String)
    (ids : List String) (sec typ : String) (st : St σ) (c : Nat) (r : String)
    (hm : env.email = some e)
    (h : env.net st.callIdx = NetOutcome.httpErr c r)
    (hc : ¬ (400 ≤ c ∧ c ≤ 599)) :
    entrez_fetch env db ids sec typ st =
      (PyVal.pyNone,
        ⟨st.callIdx + 1,
          st.events ++ [Event.netFetchDirect db ids,
            Event.logExecError ("efetch(): " ++ r)],
          st.sink⟩) := by
  simp only [entrez_fetch, hm]
  rw [show MAX_ATTEMPT = 2 + 1 from rfl]
  exact entrez_fetch_attempts_fatalHttp env db ids 2 st c r h hc

/-- `_entrez_fetch` whose first attempt fails with a `URLError`: exactly one
network attempt, then the diagnostic and `None`. -/
theorem entrez_fetch_run_url {σ : Type} (env : Env) (e db : String)
    (ids : List String) (sec typ : String) (st : St σ) (r : String)
    (hm : env.email = some e)
    (h : env.net st.callIdx = NetOutcome.urlErr r) :
    entrez_fetch env db ids sec typ st =
      (PyVal.pyNone,
        ⟨st.callIdx + 1,
          st.events ++ [Event.netFetchDirect db ids,
            Event.logExecError ("efetch(): " ++ r)],
          st.sink⟩) := by
  simp only [entrez_fetch, hm]
  rw [show MAX_ATTEMPT = 2 + 1 from rfl]
  exact entrez_fetch_attempts_url env db ids 2 st r h

/-!
### Orchestrator control-flow lemmas
-/

/-- A failed epost (query key `None`) aborts the bulk loop at once: the
returned state is exactly the failed post's state; no page is fetched and
the remaining batches are never touched. -/
theorem post_batches_fail {σ : Type} (env : Env) (sink : ParserSink σ)
    (db sec typ : String) (b : List String) (rest : List (List String))
    (st st' : St σ) (we : Option Nat) (er : Option String)
    (h : entrez_post env db b st = ((none, we, er), st')) :
    post_batches env sink db sec typ (b :: rest) st = (st', true) := by
  simp [post_batches, h]

/-- A successful epost runs the pagination loop with
`ceil(len(batch) / EFETCH_BATCH_SIZE)` iterations; if that loop aborts, the
bulk loop aborts with the same state (remaining batches never touched). -/
theorem post_batches_abort_propagate {σ : Type} (env : Env)
    (sink : ParserSink σ) (db sec typ : String) (b : List String)
    (rest : List (List String)) (st st' st'' : St σ) (k : Nat)
    (we : Option Nat) (er : Option String)
    (h : entrez_post env db b st = ((some k, we, er), st'))
    (hp : fetch_pages env sink db (some k) we sec typ
        ((b.length + EFETCH_BATCH_SIZE - 1) / EFETCH_BATCH_SIZE) 0 st' =
      (st'', true)) :
    post_batches env sink db sec typ (b :: rest) st = (st'', true) := by
  simp [post_batches, h, hp]

/-- A successful epost whose pagination loop completes: the bulk loop
sleeps 3 seconds and moves to the remaining batches. -/
theorem post_batches_continue {σ : Type} (env : Env) (sink : ParserSink σ)
    (db sec typ : String) (b : List String) (rest : List (List String))
    (st st' st'' : St σ) (k : Nat) (we : Option Nat) (er : Option String)
    (h : entrez_post env db b st = ((some k, we, er), st'))
    (hp : fetch_pages env sink db (some k) we sec typ
        ((b.length + EFETCH_BATCH_SIZE - 1) / EFETCH_BATCH_SIZE) 0 st' =
      (st'', false)) :
    post_batches env sink db sec typ (b :: rest) st =
      post_batches env sink db sec typ rest
        ⟨st''.callIdx, st''.events ++ [Event.sleepSec 3], st''.sink⟩ := by
  simp [post_batches, h, hp]

/-- A failed paginated fetch (`None` handle) aborts the pagination loop at
once: the returned state is exactly the failed fetch's state; the parser is
not invoked and no further page of the batch is fetched. -/
theorem fetch_pages_fail {σ : Type} (env : Env) (sink : ParserSink σ)
    (db sec typ : String) (qk we : Option Nat) (n fs : Nat) (st st' : St σ)
    (h : entrez_fetch_hist env db qk we sec typ fs st =
      (PyVal.pyNone, st')) :
    fetch_pages env sink db qk we sec typ (n + 1) fs st = (st', true) := by
  simp [fetch_pages, h]

/-- A fetched page whose parse leaves the completeness flag false aborts the
pagination loop right after that parse call, preserving the accumulated
sink state. -/
theorem fetch_pages_incomplete {σ : Type} (env : Env) (sink : ParserSink σ)
    (db sec typ : String) (qk we : Option Nat) (n fs : Nat) (st st' : St σ)
    (v : PyVal) (h : entrez_fetch_hist env db qk we sec typ fs st = (v, st'))
    (hv : v ≠ PyVal.pyNone) (hattr : sink.hasCompleteAttr = true)
    (hflag : sink.isParseComplete (sink.parse st'.sink v) = false) :
    fetch_pages env sink db qk we sec typ (n + 1) fs st =
      (⟨st'.callIdx, st'.events ++ [Event.parseCall v],
        sink.parse st'.sink v⟩, true) := by
  simp [fetch_pages, h, hv, hattr, hflag]

/-- A fetched page whose parse leaves the sink complete (or a sink without
the flag attribute): the pagination loop advances the offset by
`EFETCH_BATCH_SIZE` and continues. -/
theorem fetch_pages_continue {σ : Type} (env : Env) (sink : ParserSink σ)
    (db sec typ : String) (qk we : Option Nat) (n fs : Nat) (st st' : St σ)
    (v : PyVal) (h : entrez_fetch_hist env db qk we sec typ fs st = (v, st'))
    (hv : v ≠ PyVal.pyNone)
    (hflag : (sink.hasCompleteAttr &&
      !(sink.isParseComplete (sink.parse st'.sink v))) = false) :
    fetch_pages env sink db qk we sec typ (n + 1) fs st =
      fetch_pages env sink db qk we sec typ n (fs + EFETCH_BATCH_SIZE)
        ⟨st'.callIdx, st'.events ++ [Event.parseCall v],
          sink.parse st'.sink v⟩ := by
  simp [fetch_pages, h, hv, hflag]

/-- A failed direct fetch (`None` handle) aborts the direct loop at once:
the returned state is exactly the failed fetch's state; the parser is not
invoked and the remaining batches are never touched. -/
theorem direct_batches_fail {σ : Type} (env : Env) (sink : ParserSink σ)
    (db sec typ : String) (b : List String) (rest : List (List String))
    (st st' : St σ)
    (h : entrez_fetch env db b sec typ st = (PyVal.pyNone, st')) :
    direct_batches env sink db sec typ (b :: rest) st = (st', true) := by
  simp [direct_batches, h]

/-- A direct fetch whose parse leaves the completeness flag false aborts the
direct loop right after that parse call, preserving the accumulated sink
state. -/
theorem direct_batches_incomplete {σ : Type} (env : Env)
    (sink : ParserSink σ) (db sec typ : String) (b : List String)
    (rest : List (List String)) (st st' : St σ) (v : PyVal)
    (h : entrez_fetch env db b sec typ st = (v, st'))
    (hv : v ≠ PyVal.pyNone) (hattr : sink.hasCompleteAttr = true)
    (hflag : sink.isParseComplete (sink.parse st'.sink v) = false) :
    direct_batches env sink db sec typ (b :: rest) st =
      (⟨st'.callIdx, st'.events ++ [Event.parseCall v],
        sink.parse st'.sink v⟩, true) := by
  simp [direct_batches, h, hv, hattr, hflag]

/-- A direct fetch that is parsed with the sink still complete: the direct
loop sleeps 5 seconds and moves to the remaining batches. -/
theorem direct_batches_continue {σ : Type} (env : Env) (sink : ParserSink σ)
    (db sec typ : String) (b : List String) (rest : List (List String))
    (st st' : St σ) (v : PyVal)
    (h : entrez_fetch env db b sec typ st = (v, st'))
    (hv : v ≠ PyVal.pyNone)
    (hflag : (sink.hasCompleteAttr &&
      !(sink.isParseComplete (sink.parse st'.sink v))) = false) :
    direct_batches env sink db sec typ (b :: rest) st =
      direct_batches env sink db sec typ rest
        ⟨st'.callIdx, st'.events ++ [Event.parseCall v, Event.sleepSec 5],
          sink.parse st'.sink v⟩ := by
  simp [direct_batches, h, hv, hflag]

/-- When the bulk path aborts, `_search_entrez` returns its state at once:
the WGS direct path is never entered. -/
theorem search_entrez_bulk_abort {σ : Type} (env : Env)
    (splitWgs : List String → List String × List String)
    (acc_nums : List String) (sink : ParserSink σ) (db sec typ : String)
    (bs : Nat) (st st' : St σ)
    (h : post_batches env sink db sec typ
        (split_acc_nums_into_batch (splitWgs acc_nums).2 bs) st =
      (st', true)) :
    search_entrez env splitWgs acc_nums sink db sec typ bs st = st' := by
  simp [search_entrez, h]

/-- When the bulk path completes, `_search_entrez` returns the state of the
WGS direct path run from the bulk path's final state. -/
theorem search_entrez_bulk_done {σ : Type} (env : Env)
    (splitWgs : List String → List String × List String)
    (acc_nums : List String) (sink : ParserSink σ) (db sec typ : String)
    (bs : Nat) (st st' : St σ)
    (h : post_batches env sink db sec typ
        (split_acc_nums_into_batch (splitWgs acc_nums).2 bs) st =
      (st', false)) :
    search_entrez env splitWgs acc_nums sink db sec typ bs st =
      (direct_batches env sink db sec typ
        (split_acc_nums_into_batch (splitWgs acc_nums).1 EFETCH_BATCH_SIZE)
        st').1 := by
  simp [search_entrez, h]

/-!
### Sinks without the completeness attribute behave as always-complete
-/

/-- Pagination loop: a sink without the `is_parse_complete` attribute
behaves exactly like the same sink with the attribute always true. -/
theorem fetch_pages_no_attr {σ : Type} (env : Env) (f : σ → PyVal → σ)
    (g : σ → Bool) (db : String) (qk we : Option Nat) (sec typ : String) :
    ∀ (m fs : Nat) (st : St σ),
      fetch_pages env ⟨f, false, g⟩ db qk we sec typ m fs st =
        fetch_pages env ⟨f, true, fun _ => true⟩ db qk we sec typ m fs st := by
  intro m
  induction m with
  | zero => intro fs st; rfl
  | succ m ih =>
    intro fs st
    simp only [fetch_pages]
    rcases h : (entrez_fetch_hist env db qk we sec typ fs st
      (σ := σ)).1 with t | _ | _
    · simp [ih]
    · simp
    · simp [ih]

/-- Bulk loop: a sink without the `is_parse_complete` attribute behaves
exactly like the same sink with the attribute always true. -/
theorem post_batches_no_attr {σ : Type} (env : Env) (f : σ → PyVal → σ)
    (g : σ → Bool) (db sec typ : String) :
    ∀ (batches : List (List String)) (st : St σ),
      post_batches env ⟨f, false, g⟩ db sec typ batches st =
        post_batches env ⟨f, true, fun _ => true⟩ db sec typ batches st := by
  intro batches
  induction batches with
  | nil => intro st; rfl
  | cons b rest ih =>
    intro st
    simp only [post_batches]
    rcases h : (entrez_post env db b st (σ := σ)).1.1 with _ | k
    · rfl
    · simp only [h]
      rw [fetch_pages_no_attr]
      rcases hp : fetch_pages env ⟨f, true, fun _ => true⟩ db (some k)
        (entrez_post env db b st).1.2.1 sec typ
        ((b.length + EFETCH_BATCH_SIZE - 1) / EFETCH_BATCH_SIZE) 0
        (entrez_post env db b st).2 with ⟨st'', ab⟩
      cases ab
      · simp [hp, ih]
      · simp [hp]

/-- Direct loop: a sink without the `is_parse_complete` attribute behaves
exactly like the same sink with the attribute always true. -/
theorem direct_batches_no_attr {σ : Type} (env : Env) (f : σ → PyVal → σ)
    (g : σ → Bool) (db sec typ : String) :
    ∀ (batches : List (List String)) (st : St σ),
      direct_batches env ⟨f, false, g⟩ db sec typ batches st =
        direct_batches env ⟨f, true, fun _ => true⟩ db sec typ batches st := by
  intro batches
  induction batches with
  | nil => intro st; rfl
  | cons b rest ih =>
    intro st
    simp only [direct_batches]
    rcases h : (entrez_fetch env db b sec typ st (σ := σ)).1 with t | _ | _
    · simp [ih]
    · simp
    · simp [ih]

/-- `_search_entrez` with a sink lacking the `is_parse_complete` attribute
behaves exactly as with the attribute always true: the permissive default. -/
theorem search_entrez_no_attr {σ : Type} (env : Env)
    (splitWgs : List String → List String × List String)
    (acc_nums : List String) (f : σ → PyVal → σ) (g : σ → Bool)
    (db sec typ : String) (bs : Nat) (st : St σ) :
    search_entrez env splitWgs acc_nums ⟨f, false, g⟩ db sec typ bs st =
      search_entrez env splitWgs acc_nums ⟨f, true, fun _ => true⟩ db sec typ
        bs st := by
  simp only [search_entrez]
  rw [post_batches_no_attr, direct_batches_no_attr]

/-!
### Fully successful pagination runs
-/

/-- Pagination loop under a service that answers every attempt cleanly and
a sink that never signals incompleteness: the loop performs exactly its
scheduled number of page fetches, at offsets `fs`, `fs + 100`, ..., and does
not abort. -/
theorem fetch_pages_all_ok {σ : Type} (env : Env) (sink : ParserSink σ)
    (db : String) (qk we : Option Nat) (sec typ : String)
    (hok : ∀ k, ∃ t, env.net k = NetOutcome.ok t)
    (hc : ∀ s, (sink.hasCompleteAttr && !(sink.isParseComplete s)) = false) :
    ∀ (m fs : Nat) (st : St σ),
      (fetch_pages env sink db qk we sec typ m fs st).2 = false ∧
      fetchHistOffsets
          (fetch_pages env sink db qk we sec typ m fs st).1.events =
        fetchHistOffsets st.events ++
          (List.range m).map (fun i => fs + EFETCH_BATCH_SIZE * i) := by
  intro m
  induction m with
  | zero =>
    intro fs st
    refine ⟨rfl, ?_⟩
    rw [show fetch_pages env sink db qk we sec typ 0 fs st = (st, false)
      from rfl]
    simp
  | succ m ih =>
    intro fs st
    obtain ⟨t, ht⟩ := hok st.callIdx
    have hfetch := entrez_fetch_hist_ok env db qk we sec typ fs st t ht
    rw [fetch_pages_continue env sink db sec typ qk we m fs st _
      (PyVal.handle t) hfetch (by simp) (hc _)]
    obtain ⟨ihb, ihe⟩ := ih (fs + EFETCH_BATCH_SIZE) _
    refine ⟨ihb, ?_⟩
    rw [ihe]
    have hmap : (List.range (m + 1)).map
        (fun i => fs + EFETCH_BATCH_SIZE * i) =
        fs :: (List.range m).map
          (fun i => fs + EFETCH_BATCH_SIZE + EFETCH_BATCH_SIZE * i) := by
      rw [List.range_succ_eq_map]
      simp only [List.map_cons, List.map_map, Nat.mul_zero, Nat.add_zero]
      congr 1
      apply List.map_congr_left
      intro a ha
      simp only [Function.comp_apply, Nat.succ_eq_add_one,
        EFETCH_BATCH_SIZE]
      ring
    rw [hmap]
    simp [fetchHistOffsets, List.filterMap_append]

/-!
### Empty input
-/

/-- Batching an empty collection yields no batches. -/
theorem split_acc_nums_into_batch_nil (B : Nat) :
    split_acc_nums_into_batch [] B = [] := rfl

/-- `_search_entrez` over an empty accession collection (with a classifier
that, as its partition contract requires, maps the empty set to two empty
subsets) leaves the machine state untouched: no network attempt, no parse
call, no sleep, no diagnostic. -/
theorem search_entrez_nil {σ : Type} (env : Env)
    (splitWgs : List String → List String × List String)
    (hsplit : splitWgs [] = ([], [])) (sink : ParserSink σ)
    (db sec typ : String) (bs : Nat) (st : St σ) :
    search_entrez env splitWgs [] sink db sec typ bs st = st := by
  simp [search_entrez, hsplit, split_acc_nums_into_batch_nil, post_batches,
    direct_batches]

/-!
## Claims
-/

/-- Claim C2: for every identifier collection and every positive batch size
`B`, `_split_acc_nums_into_batch` returns an ordered list of batches that
are pairwise disjoint, whose concatenation contains each element of the
deduplicated input exactly once, where every batch has length at most `B`,
every batch except possibly the last has exactly `B` elements, and no batch
is empty unless the input is empty (in which case the batch list is empty). -/
theorem C2_batcher_partition (acc_nums : List String) (B : Nat)
    (hB : 0 < B) :
    (split_acc_nums_into_batch acc_nums B).flatten = acc_nums.dedup ∧
    (∀ b ∈ split_acc_nums_into_batch acc_nums B, b.length ≤ B ∧ b ≠ []) ∧
    (∀ b ∈ (split_acc_nums_into_batch acc_nums B).dropLast,
      b.length = B) ∧
    List.Pairwise List.Disjoint (split_acc_nums_into_batch acc_nums B) ∧
    (acc_nums = [] → split_acc_nums_into_batch acc_nums B = []) := by
  have hjoin : (split_acc_nums_into_batch acc_nums B).flatten =
      acc_nums.dedup := by
    have h := chunkAux_flatten acc_nums.dedup B hB acc_nums.dedup.length 0
      (by omega)
    rw [List.drop_zero] at h
    exact h
  refine ⟨hjoin, ?_, ?_, ?_, ?_⟩
  · exact fun b hb => chunkAux_mem_length acc_nums.dedup B hB _ 0 b hb
  · exact fun b hb => chunkAux_dropLast_length acc_nums.dedup B hB _ 0 b hb
  · have hnd : (split_acc_nums_into_batch acc_nums B).flatten.Nodup := by
      rw [hjoin]
      exact acc_nums.nodup_dedup
    exact (List.nodup_flatten.1 hnd).2
  · intro h
    subst h
    rfl

/-- Witness for C2 at a concrete input: the collection
`["b", "a", "b", "c"]` (with one duplicate) and batch size 2. -/
theorem C2_batcher_partition_witness :
    0 < 2 ∧
    ((split_acc_nums_into_batch ["b", "a", "b", "c"] 2).flatten =
        (["b", "a", "b", "c"] : List String).dedup ∧
      (∀ b ∈ split_acc_nums_into_batch ["b", "a", "b", "c"] 2,
        b.length ≤ 2 ∧ b ≠ []) ∧
      (∀ b ∈ (split_acc_nums_into_batch ["b", "a", "b", "c"] 2).dropLast,
        b.length = 2) ∧
      List.Pairwise List.Disjoint
        (split_acc_nums_into_batch ["b", "a", "b", "c"] 2) ∧
      (["b", "a", "b", "c"] = ([] : List String) →
        split_acc_nums_into_batch ["b", "a", "b", "c"] 2 = [])) :=
  ⟨by decide, C2_batcher_partition ["b", "a", "b", "c"] 2 (by decide)⟩

/-- Claim C8 counterexample: on the nonempty input `["a"]` with batch size
`0` (a non-positive batch size), the batcher's `while` loop never
terminates — the loop guard is still true after every number of
iterations — so the operation loops instead of rejecting the batch size. -/
theorem C8_counterexample_nonpositive_loops : chunkLoopDiverges ["a"] 0 :=
  chunkLoop_diverges_of_zero ["a"] (by decide)

/-- Claim C8 (amended): `_split_acc_nums_into_batch` is a pure function
with no side effects; for every positive batch size its `while` loop
terminates normally, but a non-positive batch size is not rejected: with
batch size `0` (the only non-positive value in the natural-number model)
and a nonempty input the loop never terminates and no error is
signalled. -/
theorem C8_batcher_termination (acc_nums : List String) (B : Nat) :
    (0 < B → ¬ chunkLoopDiverges acc_nums.dedup B) ∧
    (B = 0 → acc_nums ≠ [] → chunkLoopDiverges acc_nums.dedup B) := by
  constructor
  · intro hB
    exact chunkLoop_terminates acc_nums.dedup B hB
  · intro hB hne
    subst hB
    exact chunkLoop_diverges_of_zero acc_nums.dedup
      (fun h => hne ((List.dedup_eq_nil acc_nums).1 h))

/-- Witness for C8 at concrete inputs: with batch size 2 the loop on
`["a", "b", "c"]` terminates; with batch size 0 the loop on `["x"]`
diverges. -/
theorem C8_batcher_termination_witness :
    (¬ chunkLoopDiverges (["a", "b", "c"] : List String).dedup 2) ∧
    chunkLoopDiverges (["x"] : List String).dedup 0 :=
  ⟨(C8_batcher_termination ["a", "b", "c"] 2).1 (by decide),
    (C8_batcher_termination ["x"] 0).2 rfl (by decide)⟩

/-- A concrete environment with `Entrez.email` unset. -/
def envNoEmail : Env :=
  ⟨none, fun _ => NetOutcome.ok 0, fun _ => (none, none, none)⟩

/-- A concrete parser sink that merely counts how many times its `parse`
was invoked and has no `is_parse_complete` attribute. -/
def countSink : ParserSink Nat := ⟨fun s _ => s + 1, false, fun _ => true⟩

/-- A concrete classifier that reports every accession number as
WGS-family (the behaviour of `split_wgs_acc_nums` on a collection of WGS
accession numbers such as `AAAA01000001`). -/
def allWgs : List String → List String × List String := fun l => (l, [])

/-- A concrete classifier that reports every accession number as ordinary
(non-WGS). -/
def noWgs : List String → List String × List String := fun l => ([], l)

/-- Claim C1 (code bug witness): with `Entrez.email` unset, a public search
operation on the WGS accession set `{"AAAA01000001"}` makes zero network
attempts and logs the configuration diagnostic, but the parser sink's
`parse` *is* invoked — once, on the tuple `(None, None, None)` returned by
`_entrez_fetch`, which passes the orchestrator's `is None` check because a
tuple is not `None` — and the 5-second inter-batch sleep still runs.  The
final state below has call count `0`, the diagnostic, one `parse` call on
the tuple, one sleep, and sink state `1` (one accumulation step). -/
theorem C1_email_unset_wgs_parse_invoked :
    search_protein_seqs envNoEmail allWgs countSink 0 ["AAAA01000001"] =
      ⟨0, [Event.logExecError "Email address for Entrez is not set",
        Event.parseCall PyVal.noneTriple, Event.sleepSec 5], 1⟩ := by
  rfl

/-- Claim C10: each public search operation called on an empty identifier
collection (with a classifier satisfying its partition contract on the
empty set) makes no network attempt, never invokes the sink's `parse`,
performs no sleep, and returns the freshly constructed sink's initial
accumulated state. -/
theorem C10_empty_input :
    ∀ (σ : Type) (env : Env)
      (splitWgs : List String → List String × List String)
      (sink : ParserSink σ) (init : σ), splitWgs [] = ([], []) →
      search_target_cds_by_nt_acc_num env splitWgs sink init [] =
        ⟨0, [], init⟩ ∧
      search_protein_info env splitWgs sink init [] = ⟨0, [], init⟩ ∧
      search_protein_seqs env splitWgs sink init [] = ⟨0, [], init⟩ ∧
      search_nucleotide_seq_status env splitWgs sink init [] =
        ⟨0, [], init⟩ ∧
      search_protein_seq_status env splitWgs sink init [] =
        ⟨0, [], init⟩ := by
  intro σ env sw sink init h
  exact ⟨search_entrez_nil env sw h sink "nucleotide" "ft" "text"
      EPOST_FT_BATCH_SIZE ⟨0, [], init⟩,
    search_entrez_nil env sw h sink "protein" "gp" "xml"
      EPOST_SEQ_BATCH_SIZE ⟨0, [], init⟩,
    search_entrez_nil env sw h sink "protein" "fasta" "text"
      EPOST_SEQ_BATCH_SIZE ⟨0, [], init⟩,
    search_entrez_nil env sw h sink "nucleotide" "docsum" "xml"
      EPOST_SEQ_BATCH_SIZE ⟨0, [], init⟩,
    search_entrez_nil env sw h sink "protein" "docsum" "xml"
      EPOST_SEQ_BATCH_SIZE ⟨0, [], init⟩⟩

/-- Witness for C10 at a concrete instantiation: the counting sink with
initial state `0` and a classifier mapping every input to the ordinary
(non-WGS) subset. -/
theorem C10_empty_input_witness :
    search_target_cds_by_nt_acc_num envNoEmail noWgs countSink 0 [] =
      ⟨0, [], 0⟩ ∧
    search_protein_info envNoEmail noWgs countSink 0 [] = ⟨0, [], 0⟩ ∧
    search_protein_seqs envNoEmail noWgs countSink 0 [] = ⟨0, [], 0⟩ ∧
    search_nucleotide_seq_status envNoEmail noWgs countSink 0 [] =
      ⟨0, [], 0⟩ ∧
    search_protein_seq_status envNoEmail noWgs countSink 0 [] =
      ⟨0, [], 0⟩ :=
  C10_empty_input Nat envNoEmail noWgs countSink 0 rfl

/-- Claim C3: for every single remote call — epost, paginated efetch, or
direct efetch — if every attempt fails transiently the underlying
operation is attempted exactly `MAX_ATTEMPT = 3` times (three network
events, each followed by the 20-second backoff sleep) and the call then
logs the exhaustion diagnostic and returns its failure value; if an
attempt fails fatally the operation is attempted exactly once and fails
immediately.  The statements hold for an arbitrary starting state `st`
(any prior global attempt count and trace), so the attempt counter is
local to each call and never carries over between calls. -/
theorem C3_retry_bound :
    (∀ (σ : Type) (env : Env) (e db : String) (ids : List String)
        (qk we : Option Nat) (sec typ : String) (fs : Nat) (st : St σ),
      env.email = some e →
      (∀ k, ∃ c r, env.net k = NetOutcome.httpErr c r ∧
        400 ≤ c ∧ c ≤ 599) →
      entrez_post env db ids st =
        ((none, none, none),
          ⟨st.callIdx + 3,
            st.events ++ [Event.netPost db ids, Event.sleepSec 20,
              Event.netPost db ids, Event.sleepSec 20,
              Event.netPost db ids, Event.sleepSec 20,
              Event.logExecError "Attempted epost() 3 times and failed"],
            st.sink⟩) ∧
      entrez_fetch_hist env db qk we sec typ fs st =
        (PyVal.pyNone,
          ⟨st.callIdx + 3,
            st.events ++ [Event.netFetchHist db fs, Event.sleepSec 20,
              Event.netFetchHist db fs, Event.sleepSec 20,
              Event.netFetchHist db fs, Event.sleepSec 20,
              Event.logExecError "Attempted efetch() 3 times and failed"],
            st.sink⟩) ∧
      entrez_fetch env db ids sec typ st =
        (PyVal.pyNone,
          ⟨st.callIdx + 3,
            st.events ++ [Event.netFetchDirect db ids, Event.sleepSec 20,
              Event.netFetchDirect db ids, Event.sleepSec 20,
              Event.netFetchDirect db ids, Event.sleepSec 20,
              Event.logExecError "Attempted efetch() 3 times and failed"],
            st.sink⟩)) ∧
    (∀ (σ : Type) (env : Env) (e db : String) (ids : List String)
        (qk we : Option Nat) (sec typ : String) (fs : Nat) (st : St σ)
        (c : Nat) (r : String),
      env.email = some e → env.net st.callIdx = NetOutcome.httpErr c r →
      ¬ (400 ≤ c ∧ c ≤ 599) →
      entrez_post env db ids st =
        ((none, none, none),
          ⟨st.callIdx + 1,
            st.events ++ [Event.netPost db ids,
              Event.logExecError ("epost(): " ++ r)],
            st.sink⟩) ∧
      entrez_fetch_hist env db qk we sec typ fs st =
        (PyVal.pyNone,
          ⟨st.callIdx + 1,
            st.events ++ [Event.netFetchHist db fs,
              Event.logExecError ("efetch(): " ++ r)],
            st.sink⟩) ∧
      entrez_fetch env db ids sec typ st =
        (PyVal.pyNone,
          ⟨st.callIdx + 1,
            st.events ++ [Event.netFetchDirect db ids,
              Event.logExecError ("efetch(): " ++ r)],
            st.sink⟩)) ∧
    (∀ (σ : Type) (env : Env) (e db : String) (ids : List String)
        (qk we : Option Nat) (sec typ : String) (fs : Nat) (st : St σ)
        (r : String),
      env.email = some e → env.net st.callIdx = NetOutcome.urlErr r →
      entrez_post env db ids st =
        ((none, none, none),
          ⟨st.callIdx + 1,
            st.events ++ [Event.netPost db ids,
              Event.logExecError ("epost(): " ++ r)],
            st.sink⟩) ∧
      entrez_fetch_hist env db qk we sec typ fs st =
        (PyVal.pyNone,
          ⟨st.callIdx + 1,
            st.events ++ [Event.netFetchHist db fs,
              Event.logExecError ("efetch(): " ++ r)],
            st.sink⟩) ∧
      entrez_fetch env db ids sec typ st =
        (PyVal.pyNone,
          ⟨st.callIdx + 1,
            st.events ++ [Event.netFetchDirect db ids,
              Event.logExecError ("efetch(): " ++ r)],
            st.sink⟩)) := by
  refine ⟨?_, ?_, ?_⟩
  · intro σ env e db ids qk we sec typ fs st hm ht
    exact ⟨entrez_post_run_transient env e db ids st hm ht,
      entrez_fetch_hist_run_transient env db qk we sec typ fs st ht,
      entrez_fetch_run_transient env e db ids sec typ st hm ht⟩
  · intro σ env e db ids qk we sec typ fs st c r hm h hc
    exact ⟨entrez_post_run_fatalHttp env e db ids st c r hm h hc,
      entrez_fetch_hist_run_fatalHttp env db qk we sec typ fs st c r h hc,
      entrez_fetch_run_fatalHttp env e db ids sec typ st c r hm h hc⟩
  · intro σ env e db ids qk we sec typ fs st r hm h
    exact ⟨entrez_post_run_url env e db ids st r hm h,
      entrez_fetch_hist_run_url env db qk we sec typ fs st r h,
      entrez_fetch_run_url env e db ids sec typ st r hm h⟩

/-- Witness for C3 at concrete inputs: a service failing with 503 on every
attempt (3 attempts then exhaustion), one failing with 302 (fatal, one
attempt), and one failing with a connection error (fatal, one attempt). -/
theorem C3_retry_bound_witness :
    (entrez_post
        (⟨some "user", fun _ => NetOutcome.httpErr 503 "Service Unavailable",
          fun _ => (none, none, none)⟩ : Env)
        "nucleotide" ["AB000001"] (⟨0, [], 0⟩ : St Nat) =
      ((none, none, none),
        ⟨3, [Event.netPost "nucleotide" ["AB000001"], Event.sleepSec 20,
          Event.netPost "nucleotide" ["AB000001"], Event.sleepSec 20,
          Event.netPost "nucleotide" ["AB000001"], Event.sleepSec 20,
          Event.logExecError "Attempted epost() 3 times and failed"],
          0⟩)) ∧
    (entrez_post
        (⟨some "user", fun _ => NetOutcome.httpErr 302 "Found",
          fun _ => (none, none, none)⟩ : Env)
        "nucleotide" ["AB000001"] (⟨0, [], 0⟩ : St Nat) =
      ((none, none, none),
        ⟨1, [Event.netPost "nucleotide" ["AB000001"],
          Event.logExecError "epost(): Found"], 0⟩)) ∧
    (entrez_fetch
        (⟨some "user", fun _ => NetOutcome.urlErr "connection refused",
          fun _ => (none, none, none)⟩ : Env)
        "protein" ["P00001"] "fasta" "text" (⟨0, [], 0⟩ : St Nat) =
      (PyVal.pyNone,
        ⟨1, [Event.netFetchDirect "protein" ["P00001"],
          Event.logExecError "efetch(): connection refused"], 0⟩)) := by
  refine ⟨?_, ?_, ?_⟩
  · exact (C3_retry_bound.1 Nat _ "user" "nucleotide" ["AB000001"] none none
      "ft" "text" 0 ⟨0, [], 0⟩ rfl
      (fun k => ⟨503, "Service Unavailable", rfl, by decide, by decide⟩)).1
  · exact (C3_retry_bound.2.1 Nat _ "user" "nucleotide" ["AB000001"] none
      none "ft" "text" 0 ⟨0, [], 0⟩ 302 "Found" rfl rfl (by decide)).1
  · exact (C3_retry_bound.2.2 Nat _ "user" "protein" ["P00001"] none none
      "fasta" "text" 0 ⟨0, [], 0⟩ "connection refused" rfl rfl).2.2

/-- Claim C6: in each of the three remote-call wrappers, an `HTTPError`
with status in 400–599 is classified as transient — the wrapper sleeps 20
seconds and re-enters its attempt loop with one fewer attempt allowed (up
to the cap) — while an `HTTPError` with status outside 400–599 and a
connection-level `URLError` are fatal: logged and failed immediately after
the single attempt, with no retry. -/
theorem C6_failure_classification :
    (∀ (σ : Type) (env : Env) (db : String) (ids : List String)
        (fuel : Nat) (st : St σ) (c : Nat) (r : String),
      env.net st.callIdx = NetOutcome.httpErr c r → 400 ≤ c → c ≤ 599 →
      entrez_post_attempts env db ids (fuel + 1) st =
        entrez_post_attempts env db ids fuel
          ⟨st.callIdx + 1,
            st.events ++ [Event.netPost db ids, Event.sleepSec 20],
            st.sink⟩) ∧
    (∀ (σ : Type) (env : Env) (db : String) (fs fuel : Nat) (st : St σ)
        (c : Nat) (r : String),
      env.net st.callIdx = NetOutcome.httpErr c r → 400 ≤ c → c ≤ 599 →
      entrez_fetch_hist_attempts env db fs (fuel + 1) st =
        entrez_fetch_hist_attempts env db fs fuel
          ⟨st.callIdx + 1,
            st.events ++ [Event.netFetchHist db fs, Event.sleepSec 20],
            st.sink⟩) ∧
    (∀ (σ : Type) (env : Env) (db : String) (ids : List String)
        (fuel : Nat) (st : St σ) (c : Nat) (r : String),
      env.net st.callIdx = NetOutcome.httpErr c r → 400 ≤ c → c ≤ 599 →
      entrez_fetch_attempts env db ids (fuel + 1) st =
        entrez_fetch_attempts env db ids fuel
          ⟨st.callIdx + 1,
            st.events ++ [Event.netFetchDirect db ids, Event.sleepSec 20],
            st.sink⟩) ∧
    (∀ (σ : Type) (env : Env) (db : String) (ids : List String)
        (fuel : Nat) (st : St σ) (c : Nat) (r : String),
      env.net st.callIdx = NetOutcome.httpErr c r →
      ¬ (400 ≤ c ∧ c ≤ 599) →
      entrez_post_attempts env db ids (fuel + 1) st =
        ((none, none, none),
          ⟨st.callIdx + 1,
            st.events ++ [Event.netPost db ids,
              Event.logExecError ("epost(): " ++ r)],
            st.sink⟩)) ∧
    (∀ (σ : Type) (env : Env) (db : String) (fs fuel : Nat) (st : St σ)
        (c : Nat) (r : String),
      env.net st.callIdx = NetOutcome.httpErr c r →
      ¬ (400 ≤ c ∧ c ≤ 599) →
      entrez_fetch_hist_attempts env db fs (fuel + 1) st =
        (PyVal.pyNone,
          ⟨st.callIdx + 1,
            st.events ++ [Event.netFetchHist db fs,
              Event.logExecError ("efetch(): " ++ r)],
            st.sink⟩)) ∧
    (∀ (σ : Type) (env : Env) (db : String) (ids : List String)
        (fuel : Nat) (st : St σ) (c : Nat) (r : String),
      env.net st.callIdx = NetOutcome.httpErr c r →
      ¬ (400 ≤ c ∧ c ≤ 599) →
      entrez_fetch_attempts env db ids (fuel + 1) st =
        (PyVal.pyNone,
          ⟨st.callIdx + 1,
            st.events ++ [Event.netFetchDirect db ids,
              Event.logExecError ("efetch(): " ++ r)],
            st.sink⟩)) ∧
    (∀ (σ : Type) (env : Env) (db : String) (ids : List String)
        (fuel : Nat) (st : St σ) (r : String),
      env.net st.callIdx = NetOutcome.urlErr r →
      entrez_post_attempts env db ids (fuel + 1) st =
        ((none, none, none),
          ⟨st.callIdx + 1,
            st.events ++ [Event.netPost db ids,
              Event.logExecError ("epost(): " ++ r)],
            st.sink⟩)) ∧
    (∀ (σ : Type) (env : Env) (db : String) (fs fuel : Nat) (st : St σ)
        (r : String),
      env.net st.callIdx = NetOutcome.urlErr r →
      entrez_fetch_hist_attempts env db fs (fuel + 1) st =
        (PyVal.pyNone,
          ⟨st.callIdx + 1,
            st.events ++ [Event.netFetchHist db fs,
              Event.logExecError ("efetch(): " ++ r)],
            st.sink⟩)) ∧
    (∀ (σ : Type) (env : Env) (db : String) (ids : List String)
        (fuel : Nat) (st : St σ) (r : String),
      env.net st.callIdx = NetOutcome.urlErr r →
      entrez_fetch_attempts env db ids (fuel + 1) st =
        (PyVal.pyNone,
          ⟨st.callIdx + 1,
            st.events ++ [Event.netFetchDirect db ids,
              Event.logExecError ("efetch(): " ++ r)],
            st.sink⟩)) := by
  refine ⟨?_, ?_, ?_, ?_, ?_, ?_, ?_, ?_, ?_⟩
  · intro σ env db ids fuel st c r h h4 h5
    exact entrez_post_attempts_transient env db ids fuel st c r h h4 h5
  · intro σ env db fs fuel st c r h h4 h5
    exact entrez_fetch_hist_attempts_transient env db fs fuel st c r h h4 h5
  · intro σ env db ids fuel st c r h h4 h5
    exact entrez_fetch_attempts_transient env db ids fuel st c r h h4 h5
  · intro σ env db ids fuel st c r h hc
    exact entrez_post_attempts_fatalHttp env db ids fuel st c r h hc
  · intro σ env db fs fuel st c r h hc
    exact entrez_fetch_hist_attempts_fatalHttp env db fs fuel st c r h hc
  · intro σ env db ids fuel st c r h hc
    exact entrez_fetch_attempts_fatalHttp env db ids fuel st c r h hc
  · intro σ env db ids fuel st r h
    exact entrez_post_attempts_url env db ids fuel st r h
  · intro σ env db fs fuel st r h
    exact entrez_fetch_hist_attempts_url env db fs fuel st r h
  · intro σ env db ids fuel st r h
    exact entrez_fetch_attempts_url env db ids fuel st r h

/-- A concrete environment whose service fails every attempt with the given
HTTP status and reason. -/
def envHttp (c : Nat) (r : String) : Env :=
  ⟨some "user", fun _ => NetOutcome.httpErr c r, fun _ => (none, none, none)⟩

/-- A concrete environment whose service fails every attempt with a
connection-level `URLError` carrying the given reason. -/
def envUrl (r : String) : Env :=
  ⟨some "user", fun _ => NetOutcome.urlErr r, fun _ => (none, none, none)⟩

/-- Witness for C6 at concrete inputs, exercising both boundary statuses of
the retriable range (400 and 599), statuses just outside it (399 and 600),
and `URLError`s, on all three wrappers. -/
theorem C6_failure_classification_witness :
    (entrez_post_attempts (envHttp 400 "Bad Request") "nucleotide" ["X1"] 1
        (⟨0, [], 0⟩ : St Nat) =
      entrez_post_attempts (envHttp 400 "Bad Request") "nucleotide" ["X1"] 0
        ⟨1, [Event.netPost "nucleotide" ["X1"], Event.sleepSec 20], 0⟩) ∧
    (entrez_fetch_hist_attempts (envHttp 599 "Server Error") "nucleotide" 0 1
        (⟨0, [], 0⟩ : St Nat) =
      entrez_fetch_hist_attempts (envHttp 599 "Server Error") "nucleotide" 0
        0 ⟨1, [Event.netFetchHist "nucleotide" 0, Event.sleepSec 20], 0⟩) ∧
    (entrez_fetch_attempts (envHttp 500 "Internal Server Error") "protein"
        ["P00001"] 1 (⟨0, [], 0⟩ : St Nat) =
      entrez_fetch_attempts (envHttp 500 "Internal Server Error") "protein"
        ["P00001"] 0
        ⟨1, [Event.netFetchDirect "protein" ["P00001"], Event.sleepSec 20],
          0⟩) ∧
    (entrez_post_attempts (envHttp 399 "Redirect") "nucleotide" ["X1"] 2
        (⟨0, [], 0⟩ : St Nat) =
      ((none, none, none),
        ⟨1, [Event.netPost "nucleotide" ["X1"],
          Event.logExecError "epost(): Redirect"], 0⟩)) ∧
    (entrez_fetch_hist_attempts (envHttp 600 "Strange") "nucleotide" 0 2
        (⟨0, [], 0⟩ : St Nat) =
      (PyVal.pyNone,
        ⟨1, [Event.netFetchHist "nucleotide" 0,
          Event.logExecError "efetch(): Strange"], 0⟩)) ∧
    (entrez_fetch_attempts (envHttp 399 "Redirect") "protein" ["P00001"] 2
        (⟨0, [], 0⟩ : St Nat) =
      (PyVal.pyNone,
        ⟨1, [Event.netFetchDirect "protein" ["P00001"],
          Event.logExecError "efetch(): Redirect"], 0⟩)) ∧
    (entrez_post_attempts (envUrl "connection refused") "nucleotide" ["X1"]
        2 (⟨0, [], 0⟩ : St Nat) =
      ((none, none, none),
        ⟨1, [Event.netPost "nucleotide" ["X1"],
          Event.logExecError "epost(): connection refused"], 0⟩)) ∧
    (entrez_fetch_hist_attempts (envUrl "timed out") "nucleotide" 100 2
        (⟨0, [], 0⟩ : St Nat) =
      (PyVal.pyNone,
        ⟨1, [Event.netFetchHist "nucleotide" 100,
          Event.logExecError "efetch(): timed out"], 0⟩)) ∧
    (entrez_fetch_attempts (envUrl "no route to host") "protein" ["P00001"]
        2 (⟨0, [], 0⟩ : St Nat) =
      (PyVal.pyNone,
        ⟨1, [Event.netFetchDirect "protein" ["P00001"],
          Event.logExecError "efetch(): no route to host"], 0⟩)) :=
  ⟨C6_failure_classification.1 Nat (envHttp 400 "Bad Request") "nucleotide"
      ["X1"] 0 ⟨0, [], 0⟩ 400 "Bad Request" rfl (by decide) (by decide),
    C6_failure_classification.2.1 Nat (envHttp 599 "Server Error")
      "nucleotide" 0 0 ⟨0, [], 0⟩ 599 "Server Error" rfl (by decide)
      (by decide),
    C6_failure_classification.2.2.1 Nat (envHttp 500 "Internal Server Error")
      "protein" ["P00001"] 0 ⟨0, [], 0⟩ 500 "Internal Server Error" rfl
      (by decide) (by decide),
    C6_failure_classification.2.2.2.1 Nat (envHttp 399 "Redirect")
      "nucleotide" ["X1"] 1 ⟨0, [], 0⟩ 399 "Redirect" rfl (by decide),
    C6_failure_classification.2.2.2.2.1 Nat (envHttp 600 "Strange")
      "nucleotide" 0 1 ⟨0, [], 0⟩ 600 "Strange" rfl (by decide),
    C6_failure_classification.2.2.2.2.2.1 Nat (envHttp 399 "Redirect")
      "protein" ["P00001"] 1 ⟨0, [], 0⟩ 399 "Redirect" rfl (by decide),
    C6_failure_classification.2.2.2.2.2.2.1 Nat (envUrl "connection refused")
      "nucleotide" ["X1"] 1 ⟨0, [], 0⟩ "connection refused" rfl,
    C6_failure_classification.2.2.2.2.2.2.2.1 Nat (envUrl "timed out")
      "nucleotide" 100 1 ⟨0, [], 0⟩ "timed out" rfl,
    C6_failure_classification.2.2.2.2.2.2.2.2 Nat (envUrl "no route to host")
      "protein" ["P00001"] 1 ⟨0, [], 0⟩ "no route to host" rfl⟩

/-- Claim C9 counterexample: with `Entrez.email` unset, the paginated
fetch-by-history wrapper still performs its network call — the resulting
state records one network attempt and no configuration diagnostic, and the
call succeeds — contradicting the claim that every call path that performs
network I/O validates the email first and fails fatally without I/O when
it is absent. -/
theorem C9_counterexample_fetch_hist_no_email_check :
    entrez_fetch_hist
        (⟨none, fun _ => NetOutcome.ok 7,
          fun _ => (none, none, none)⟩ : Env)
        "nucleotide" (some 1) (some 2) "ft" "text" 0
        (⟨0, [], 0⟩ : St Nat) =
      (PyVal.handle 7, ⟨1, [Event.netFetchHist "nucleotide" 0], 0⟩) := by
  rfl

/-- Claim C9 (amended): the email precondition is validated at the start of
epost and of direct efetch — each checks `Entrez.email` on every call and,
when it is absent, logs the configuration diagnostic and fails with no
network attempt, so a reconfiguration between calls takes effect on the
next epost or direct-efetch call.  The paginated fetch-by-history wrapper,
however, performs no email check at all: its behaviour is identical in any
two environments that differ only in the email configuration. -/
theorem C9_email_precondition :
    (∀ (σ : Type) (env : Env) (db : String) (ids : List String)
        (st : St σ), env.email = none →
      entrez_post env db ids st =
        ((none, none, none),
          ⟨st.callIdx,
            st.events ++
              [Event.logExecError "Email address for Entrez is not set"],
            st.sink⟩)) ∧
    (∀ (σ : Type) (env : Env) (db : String) (ids : List String)
        (sec typ : String) (st : St σ), env.email = none →
      entrez_fetch env db ids sec typ st =
        (PyVal.noneTriple,
          ⟨st.callIdx,
            st.events ++
              [Event.logExecError "Email address for Entrez is not set"],
            st.sink⟩)) ∧
    (∀ (σ : Type) (env : Env) (em : Option String) (db : String)
        (qk we : Option Nat) (sec typ : String) (fs : Nat) (st : St σ),
      entrez_fetch_hist ⟨em, env.net, env.epostParse⟩ db qk we sec typ fs
          st =
        entrez_fetch_hist env db qk we sec typ fs st) := by
  refine ⟨?_, ?_, ?_⟩
  · intro σ env db ids st hm
    exact entrez_post_email_none env db ids st hm
  · intro σ env db ids sec typ st hm
    exact entrez_fetch_email_none env db ids sec typ st hm
  · intro σ env em db qk we sec typ fs st
    exact entrez_fetch_hist_email_irrelevant env em db qk we sec typ fs st

/-- Witness for C9 at concrete inputs. -/
theorem C9_email_precondition_witness :
    (entrez_post envNoEmail "nucleotide" ["X1"] (⟨0, [], 0⟩ : St Nat) =
      ((none, none, none),
        ⟨0, [Event.logExecError "Email address for Entrez is not set"],
          0⟩)) ∧
    (entrez_fetch envNoEmail "protein" ["P00001"] "fasta" "text"
        (⟨0, [], 0⟩ : St Nat) =
      (PyVal.noneTriple,
        ⟨0, [Event.logExecError "Email address for Entrez is not set"],
          0⟩)) ∧
    (entrez_fetch_hist
        (⟨some "user", envNoEmail.net, envNoEmail.epostParse⟩ : Env)
        "nucleotide" none none "ft" "text" 0 (⟨0, [], 0⟩ : St Nat) =
      entrez_fetch_hist envNoEmail "nucleotide" none none "ft" "text" 0
        (⟨0, [], 0⟩ : St Nat)) :=
  ⟨C9_email_precondition.1 Nat envNoEmail "nucleotide" ["X1"] ⟨0, [], 0⟩
      rfl,
    C9_email_precondition.2.1 Nat envNoEmail "protein" ["P00001"] "fasta"
      "text" ⟨0, [], 0⟩ rfl,
    C9_email_precondition.2.2 Nat envNoEmail (some "user") "nucleotide"
      none none "ft" "text" 0 ⟨0, [], 0⟩⟩

/-- Claim C4: fail-fast propagation in `_search_entrez`.  If posting a bulk
batch fails, the bulk loop returns at once with exactly the failed post's
state (no page fetched, remaining batches never touched); if a paginated
fetch of any page fails, the pagination loop returns at once with exactly
the failed fetch's state (no further page of the batch); an aborted
pagination loop aborts the bulk loop with the same state (no subsequent
batch posted); an aborted bulk path makes `_search_entrez` return at once
(the WGS direct path is never entered); and a failed direct fetch aborts
the direct loop at once (remaining WGS batches never touched). -/
theorem C4_fail_fast :
    (∀ (σ : Type) (env : Env) (sink : ParserSink σ) (db sec typ : String)
        (b : List String) (rest : List (List String)) (st st' : St σ)
        (we : Option Nat) (er : Option String),
      entrez_post env db b st = ((none, we, er), st') →
      post_batches env sink db sec typ (b :: rest) st = (st', true)) ∧
    (∀ (σ : Type) (env : Env) (sink : ParserSink σ) (db sec typ : String)
        (qk we : Option Nat) (n fs : Nat) (st st' : St σ),
      entrez_fetch_hist env db qk we sec typ fs st =
        (PyVal.pyNone, st') →
      fetch_pages env sink db qk we sec typ (n + 1) fs st = (st', true)) ∧
    (∀ (σ : Type) (env : Env) (sink : ParserSink σ) (db sec typ : String)
        (b : List String) (rest : List (List String)) (st st' st'' : St σ)
        (k : Nat) (we : Option Nat) (er : Option String),
      entrez_post env db b st = ((some k, we, er), st') →
      fetch_pages env sink db (some k) we sec typ
          ((b.length + EFETCH_BATCH_SIZE - 1) / EFETCH_BATCH_SIZE) 0 st' =
        (st'', true) →
      post_batches env sink db sec typ (b :: rest) st = (st'', true)) ∧
    (∀ (σ : Type) (env : Env)
        (splitWgs : List String → List String × List String)
        (acc_nums : List String) (sink : ParserSink σ) (db sec typ : String)
        (bs : Nat) (st st' : St σ),
      post_batches env sink db sec typ
          (split_acc_nums_into_batch (splitWgs acc_nums).2 bs) st =
        (st', true) →
      search_entrez env splitWgs acc_nums sink db sec typ bs st = st') ∧
    (∀ (σ : Type) (env : Env) (sink : ParserSink σ) (db sec typ : String)
        (b : List String) (rest : List (List String)) (st st' : St σ),
      entrez_fetch env db b sec typ st = (PyVal.pyNone, st') →
      direct_batches env sink db sec typ (b :: rest) st = (st', true)) := by
  refine ⟨?_, ?_, ?_, ?_, ?_⟩
  · intro σ env sink db sec typ b rest st st' we er h
    exact post_batches_fail env sink db sec typ b rest st st' we er h
  · intro σ env sink db sec typ qk we n fs st st' h
    exact fetch_pages_fail env sink db sec typ qk we n fs st st' h
  · intro σ env sink db sec typ b rest st st' st'' k we er h hp
    exact post_batches_abort_propagate env sink db sec typ b rest st st'
      st'' k we er h hp
  · intro σ env sw acc sink db sec typ bs st st' h
    exact search_entrez_bulk_abort env sw acc sink db sec typ bs st st' h
  · intro σ env sink db sec typ b rest st st' h
    exact direct_batches_fail env sink db sec typ b rest st st' h

/-- A concrete environment whose first attempt succeeds (epost handle `3`,
parsed to query key `5`, web environment `6`) and whose every later attempt
fails with a connection error. -/
def envPostOkThenFail : Env :=
  ⟨some "user",
    fun k => if k = 0 then NetOutcome.ok 3 else NetOutcome.urlErr "down",
    fun _ => (some 5, some 6, none)⟩

/-- Witness for C4 at concrete inputs: a failing post aborts with the
post's state and batch 2 untouched; a failing page fetch aborts with the
fetch's state; a successful post whose single page fetch fails aborts the
bulk loop; an aborted bulk path makes `_search_entrez` return at once; a
failing direct fetch aborts the direct loop. -/
theorem C4_fail_fast_witness :
    (post_batches (envUrl "down") countSink "nucleotide" "ft" "text"
        [["A1"], ["B1"]] (⟨0, [], 0⟩ : St Nat) =
      (⟨1, [Event.netPost "nucleotide" ["A1"],
        Event.logExecError "epost(): down"], 0⟩, true)) ∧
    (fetch_pages (envUrl "down") countSink "nucleotide" (some 5) (some 6)
        "ft" "text" 2 0 (⟨0, [], 0⟩ : St Nat) =
      (⟨1, [Event.netFetchHist "nucleotide" 0,
        Event.logExecError "efetch(): down"], 0⟩, true)) ∧
    (post_batches envPostOkThenFail countSink "nucleotide" "ft" "text"
        [["A1"], ["B1"]] (⟨0, [], 0⟩ : St Nat) =
      (⟨2, [Event.netPost "nucleotide" ["A1"],
        Event.netFetchHist "nucleotide" 0,
        Event.logExecError "efetch(): down"], 0⟩, true)) ∧
    (search_entrez (envUrl "down") noWgs ["A1"] countSink "nucleotide" "ft"
        "text" 100 (⟨0, [], 0⟩ : St Nat) =
      ⟨1, [Event.netPost "nucleotide" ["A1"],
        Event.logExecError "epost(): down"], 0⟩) ∧
    (direct_batches (envUrl "down") countSink "nucleotide" "ft" "text"
        [["A1"], ["B1"]] (⟨0, [], 0⟩ : St Nat) =
      (⟨1, [Event.netFetchDirect "nucleotide" ["A1"],
        Event.logExecError "efetch(): down"], 0⟩, true)) :=
  ⟨C4_fail_fast.1 Nat (envUrl "down") countSink "nucleotide" "ft" "text"
      ["A1"] [["B1"]] ⟨0, [], 0⟩ _ none none rfl,
    C4_fail_fast.2.1 Nat (envUrl "down") countSink "nucleotide" "ft" "text"
      (some 5) (some 6) 1 0 ⟨0, [], 0⟩ _ rfl,
    C4_fail_fast.2.2.1 Nat envPostOkThenFail countSink "nucleotide" "ft"
      "text" ["A1"] [["B1"]] ⟨0, [], 0⟩ _ _ 5 (some 6) none rfl rfl,
    C4_fail_fast.2.2.2.1 Nat (envUrl "down") noWgs ["A1"] countSink
      "nucleotide" "ft" "text" 100 ⟨0, [], 0⟩ _ rfl,
    C4_fail_fast.2.2.2.2 Nat (envUrl "down") countSink "nucleotide" "ft"
      "text" ["A1"] [["B1"]] ⟨0, [], 0⟩ _ rfl⟩

/-- Claim C5: parse-incomplete short-circuit with permissive default.  If,
after a parse call, a sink exposing the completeness flag reports it false,
the pagination loop (bulk path) or the direct loop (WGS path) halts
immediately after that call, preserving and returning the sink's
accumulated state; an aborted bulk path makes `_search_entrez` return that
state at once; and a sink without the flag attribute makes the
orchestration behave exactly as if parsing were always complete. -/
theorem C5_parse_incomplete :
    (∀ (σ : Type) (env : Env) (sink : ParserSink σ) (db sec typ : String)
        (qk we : Option Nat) (n fs : Nat) (st st' : St σ) (v : PyVal),
      entrez_fetch_hist env db qk we sec typ fs st = (v, st') →
      v ≠ PyVal.pyNone → sink.hasCompleteAttr = true →
      sink.isParseComplete (sink.parse st'.sink v) = false →
      fetch_pages env sink db qk we sec typ (n + 1) fs st =
        (⟨st'.callIdx, st'.events ++ [Event.parseCall v],
          sink.parse st'.sink v⟩, true)) ∧
    (∀ (σ : Type) (env : Env) (sink : ParserSink σ) (db sec typ : String)
        (b : List String) (rest : List (List String)) (st st' : St σ)
        (v : PyVal),
      entrez_fetch env db b sec typ st = (v, st') →
      v ≠ PyVal.pyNone → sink.hasCompleteAttr = true →
      sink.isParseComplete (sink.parse st'.sink v) = false →
      direct_batches env sink db sec typ (b :: rest) st =
        (⟨st'.callIdx, st'.events ++ [Event.parseCall v],
          sink.parse st'.sink v⟩, true)) ∧
    (∀ (σ : Type) (env : Env)
        (splitWgs : List String → List String × List String)
        (acc_nums : List String) (sink : ParserSink σ) (db sec typ : String)
        (bs : Nat) (st st' : St σ),
      post_batches env sink db sec typ
          (split_acc_nums_into_batch (splitWgs acc_nums).2 bs) st =
        (st', true) →
      search_entrez env splitWgs acc_nums sink db sec typ bs st = st') ∧
    (∀ (σ : Type) (env : Env)
        (splitWgs : List String → List String × List String)
        (acc_nums : List String) (f : σ → PyVal → σ) (g : σ → Bool)
        (db sec typ : String) (bs : Nat) (st : St σ),
      search_entrez env splitWgs acc_nums ⟨f, false, g⟩ db sec typ bs st =
        search_entrez env splitWgs acc_nums ⟨f, true, fun _ => true⟩ db sec
          typ bs st) := by
  refine ⟨?_, ?_, ?_, ?_⟩
  · intro σ env sink db sec typ qk we n fs st st' v h hv hattr hflag
    exact fetch_pages_incomplete env sink db sec typ qk we n fs st st' v h
      hv hattr hflag
  · intro σ env sink db sec typ b rest st st' v h hv hattr hflag
    exact direct_batches_incomplete env sink db sec typ b rest st st' v h
      hv hattr hflag
  · intro σ env sw acc sink db sec typ bs st st' h
    exact search_entrez_bulk_abort env sw acc sink db sec typ bs st st' h
  · intro σ env sw acc f g db sec typ bs st
    exact search_entrez_no_attr env sw acc f g db sec typ bs st

/-- A concrete environment whose service answers every attempt cleanly
(handle token `3`), with every epost response parsed to query key `5` and
web environment `6`. -/
def envOk : Env :=
  ⟨some "user", fun _ => NetOutcome.ok 3, fun _ => (some 5, some 6, none)⟩

/-- A concrete parser sink that counts its `parse` calls, exposes the
completeness flag, and reports incompleteness as soon as it has parsed
anything. -/
def flagSink : ParserSink Nat := ⟨fun s _ => s + 1, true, fun s => s == 0⟩

/-- Witness for C5 at concrete inputs: the flagged counting sink halts the
pagination loop, the direct loop, and the whole orchestration right after
its first parse call (the accumulated state `1` is preserved and
returned), and a flagless sink runs identically to an always-complete
one. -/
theorem C5_parse_incomplete_witness :
    (fetch_pages envOk flagSink "nucleotide" (some 5) (some 6) "ft" "text"
        2 0 (⟨0, [], 0⟩ : St Nat) =
      (⟨1, [Event.netFetchHist "nucleotide" 0,
        Event.parseCall (PyVal.handle 3)], 1⟩, true)) ∧
    (direct_batches envOk flagSink "protein" "fasta" "text"
        [["P00001"], ["P00002"]] (⟨0, [], 0⟩ : St Nat) =
      (⟨1, [Event.netFetchDirect "protein" ["P00001"],
        Event.parseCall (PyVal.handle 3)], 1⟩, true)) ∧
    (search_entrez envOk noWgs ["A1"] flagSink "nucleotide" "ft" "text" 100
        (⟨0, [], 0⟩ : St Nat) =
      ⟨2, [Event.netPost "nucleotide" ["A1"],
        Event.netFetchHist "nucleotide" 0,
        Event.parseCall (PyVal.handle 3)], 1⟩) ∧
    (search_entrez envOk noWgs ["A1"]
        (⟨fun s _ => s + 1, false, fun s => s == 0⟩ : ParserSink Nat)
        "nucleotide" "ft" "text" 100 (⟨0, [], 0⟩ : St Nat) =
      search_entrez envOk noWgs ["A1"]
        (⟨fun s _ => s + 1, true, fun _ => true⟩ : ParserSink Nat)
        "nucleotide" "ft" "text" 100 (⟨0, [], 0⟩ : St Nat)) :=
  ⟨C5_parse_incomplete.1 Nat envOk flagSink "nucleotide" "ft" "text"
      (some 5) (some 6) 1 0 ⟨0, [], 0⟩ _ (PyVal.handle 3) rfl (by decide)
      rfl rfl,
    C5_parse_incomplete.2.1 Nat envOk flagSink "protein" "fasta" "text"
      ["P00001"] [["P00002"]] ⟨0, [], 0⟩ _ (PyVal.handle 3) rfl (by decide)
      rfl rfl,
    C5_parse_incomplete.2.2.1 Nat envOk noWgs ["A1"] flagSink "nucleotide"
      "ft" "text" 100 ⟨0, [], 0⟩ _ rfl,
    C5_parse_incomplete.2.2.2 Nat envOk noWgs ["A1"] (fun s _ => s + 1)
      (fun s => s == 0) "nucleotide" "ft" "text" 100 ⟨0, [], 0⟩⟩

/-- The 250 pairwise-distinct identifiers used as the C7 scenario input. -/
def idsAas : List String :=
  (List.range 250).map (fun n => String.mk (List.replicate n 'a'))

theorem idsAas_nodup : idsAas.Nodup := by
  refine List.Nodup.map ?_ (List.nodup_range 250)
  intro a b h
  have h2 := congrArg (fun s => s.data.length) h
  simpa using h2

theorem idsAas_length : idsAas.length = 250 := by
  simp [idsAas]

/-- A single successfully posted bulk batch, under a service answering
every attempt cleanly, a post parser always yielding a query key, and a
sink never signalling incompleteness: the bulk loop does not abort and
performs exactly `ceil(len(batch) / EFETCH_BATCH_SIZE)` paginated fetches,
at offsets `0, 100, 200, ...`. -/
theorem post_batches_single_all_ok {σ : Type} (env : Env)
    (sink : ParserSink σ) (e db sec typ : String) (b : List String)
    (st : St σ) (hm : env.email = some e)
    (hok : ∀ k, ∃ t, env.net k = NetOutcome.ok t)
    (hqk : ∀ t, ∃ k, (env.epostParse t).1 = some k)
    (hc : ∀ s, (sink.hasCompleteAttr && !(sink.isParseComplete s)) = false) :
    (post_batches env sink db sec typ [b] st).2 = false ∧
    fetchHistOffsets (post_batches env sink db sec typ [b] st).1.events =
      fetchHistOffsets st.events ++
        (List.range
          ((b.length + EFETCH_BATCH_SIZE - 1) / EFETCH_BATCH_SIZE)).map
          (fun i => EFETCH_BATCH_SIZE * i) := by
  obtain ⟨t, ht⟩ := hok st.callIdx
  have hpost := entrez_post_ok env e db b st t hm ht
  obtain ⟨k, hk⟩ := hqk t
  have hfp := fetch_pages_all_ok env sink db (some k)
    (env.epostParse t).2.1 sec typ hok hc
    ((b.length + EFETCH_BATCH_SIZE - 1) / EFETCH_BATCH_SIZE) 0
    ⟨st.callIdx + 1, st.events ++ [Event.netPost db b], st.sink⟩
  rcases hp : fetch_pages env sink db (some k) (env.epostParse t).2.1 sec
      typ ((b.length + EFETCH_BATCH_SIZE - 1) / EFETCH_BATCH_SIZE) 0
      ⟨st.callIdx + 1, st.events ++ [Event.netPost db b], st.sink⟩
    with ⟨st2, ab⟩
  rw [hp] at hfp
  obtain ⟨hab, hoffs⟩ := hfp
  simp only at hab
  subst hab
  simp only [post_batches, hpost, hk, hp]
  refine ⟨rfl, ?_⟩
  simp only [fetchHistOffsets, List.filterMap_append] at hoffs
  simp [fetchHistOffsets, List.filterMap_append, hoffs]

/-- Unfolding lemma: one iteration of the batching loop while the guard
holds. -/
theorem chunkAux_cons (l : List String) (B start fuel : Nat)
    (h : start < l.length) :
    chunkAux l B start (fuel + 1) =
      (l.drop start).take (min (start + B) l.length - start) ::
        chunkAux l B (min (start + B) l.length) fuel := by
  simp [chunkAux, h]

/-- Claim C7: pagination schedule.  (1) Under a cleanly answering service
and a sink that never signals incompleteness, the pagination loop performs
exactly its scheduled number of paginated fetches, in order, at offsets
`fs, fs + 100, fs + 200, ...` (each offset exactly `EFETCH_BATCH_SIZE = 100`
more than the previous) and does not abort.  (2) A successfully posted bulk
batch of `n` identifiers therefore performs exactly
`ceil(n / 100) = (n + 99) / 100` paginated fetches, at offsets
`0, 100, 200, ...`.  (3) A 250-identifier duplicate-free bulk-eligible
collection with post batch size 100 is split into 3 batches of sizes
`[100, 100, 50]`.  (4) A 100-identifier batch yields exactly one fetch
page. -/
theorem C7_pagination_schedule :
    (∀ (σ : Type) (env : Env) (sink : ParserSink σ) (db : String)
        (qk we : Option Nat) (sec typ : String),
      (∀ k, ∃ t, env.net k = NetOutcome.ok t) →
      (∀ s, (sink.hasCompleteAttr && !(sink.isParseComplete s)) = false) →
      ∀ (m fs : Nat) (st : St σ),
        (fetch_pages env sink db qk we sec typ m fs st).2 = false ∧
        fetchHistOffsets
            (fetch_pages env sink db qk we sec typ m fs st).1.events =
          fetchHistOffsets st.events ++
            (List.range m).map (fun i => fs + EFETCH_BATCH_SIZE * i)) ∧
    (∀ (σ : Type) (env : Env) (sink : ParserSink σ) (e db sec typ : String)
        (b : List String) (st : St σ),
      env.email = some e →
      (∀ k, ∃ t, env.net k = NetOutcome.ok t) →
      (∀ t, ∃ k, (env.epostParse t).1 = some k) →
      (∀ s, (sink.hasCompleteAttr && !(sink.isParseComplete s)) = false) →
      (post_batches env sink db sec typ [b] st).2 = false ∧
      fetchHistOffsets
          (post_batches env sink db sec typ [b] st).1.events =
        fetchHistOffsets st.events ++
          (List.range
            ((b.length + EFETCH_BATCH_SIZE - 1) / EFETCH_BATCH_SIZE)).map
            (fun i => EFETCH_BATCH_SIZE * i)) ∧
    (∀ l : List String, l.Nodup → l.length = 250 →
      (split_acc_nums_into_batch l 100).map List.length =
        [100, 100, 50]) ∧
    (∀ b : List String, b.length = 100 →
      (b.length + EFETCH_BATCH_SIZE - 1) / EFETCH_BATCH_SIZE = 1) := by
  refine ⟨?_, ?_, ?_, ?_⟩
  · intro σ env sink db qk we sec typ hok hc m fs st
    exact fetch_pages_all_ok env sink db qk we sec typ hok hc m fs st
  · intro σ env sink e db sec typ b st hm hok hqk hc
    exact post_batches_single_all_ok env sink e db sec typ b st hm hok hqk
      hc
  · intro l hnd h250
    have hd : l.dedup = l := List.dedup_eq_self.2 hnd
    simp only [split_acc_nums_into_batch, hd, h250]
    rw [show (250 : Nat) = 249 + 1 from rfl,
      chunkAux_cons l 100 0 249 (by omega)]
    rw [show min (0 + 100) l.length = 100 from by omega]
    rw [show (249 : Nat) = 248 + 1 from rfl,
      chunkAux_cons l 100 100 248 (by omega)]
    rw [show min (100 + 100) l.length = 200 from by omega]
    rw [show (248 : Nat) = 247 + 1 from rfl,
      chunkAux_cons l 100 200 247 (by omega)]
    rw [show min (200 + 100) l.length = 250 from by omega]
    rw [chunkAux_of_ge l 100 250 247 (by omega)]
    simp [List.length_take, List.length_drop, h250]
  · intro b h
    rw [h]
    decide

/-- Witness for C7 at concrete inputs: a 3-page pagination run at offsets
`0, 100, 200`; a single posted batch; the 250-identifier duplicate-free
collection `idsAas` split into batches of sizes `[100, 100, 50]`; and a
100-identifier batch yielding one fetch page. -/
theorem C7_pagination_schedule_witness :
    ((fetch_pages envOk countSink "nucleotide" (some 5) (some 6) "ft"
        "text" 3 0 (⟨0, [], 0⟩ : St Nat)).2 = false ∧
      fetchHistOffsets
          (fetch_pages envOk countSink "nucleotide" (some 5) (some 6) "ft"
            "text" 3 0 (⟨0, [], 0⟩ : St Nat)).1.events =
        fetchHistOffsets (⟨0, [], 0⟩ : St Nat).events ++
          (List.range 3).map (fun i => 0 + EFETCH_BATCH_SIZE * i)) ∧
    ((post_batches envOk countSink "nucleotide" "ft" "text" [["B1"]]
        (⟨0, [], 0⟩ : St Nat)).2 = false ∧
      fetchHistOffsets
          (post_batches envOk countSink "nucleotide" "ft" "text" [["B1"]]
            (⟨0, [], 0⟩ : St Nat)).1.events =
        fetchHistOffsets (⟨0, [], 0⟩ : St Nat).events ++
          (List.range
            ((["B1"].length + EFETCH_BATCH_SIZE - 1) /
              EFETCH_BATCH_SIZE)).map
            (fun i => EFETCH_BATCH_SIZE * i)) ∧
    ((split_acc_nums_into_batch idsAas 100).map List.length =
      [100, 100, 50]) ∧
    ((List.replicate 100 "x" : List String).length + EFETCH_BATCH_SIZE -
        1) / EFETCH_BATCH_SIZE = 1 :=
  ⟨C7_pagination_schedule.1 Nat envOk countSink "nucleotide" (some 5)
      (some 6) "ft" "text" (fun k => ⟨3, rfl⟩) (fun s => rfl) 3 0
      ⟨0, [], 0⟩,
    C7_pagination_schedule.2.1 Nat envOk countSink "user" "nucleotide"
      "ft" "text" ["B1"] ⟨0, [], 0⟩ rfl (fun k => ⟨3, rfl⟩)
      (fun t => ⟨5, rfl⟩) (fun s => rfl),
    C7_pagination_schedule.2.2.1 idsAas idsAas_nodup idsAas_length,
    C7_pagination_schedule.2.2.2 (List.replicate 100 "x") (by simp)⟩
